import Mathlib

/-!
# Health Yaar: a shallow embedding of the chat, profile and upload handlers

The repository holds three variants of one React application:

* `src/f/frontend/src/App.js` (namespace `Frontend`): the AI calls go through a backend,
* `src/health-app/src/App.jsx` (namespace `HealthApp`): the chat calls the model directly and
  sends the conversation history,
* `src/tempCodeRunnerFile.js` (namespace `TempCodeRunner`): the chat calls the model directly with
  a single prompt.

React state is modelled by explicit records (`ChatState`, `AppState`).  An `async` handler is cut at
its `await`: the part that runs before the request is issued is a function returning the new state
and the outbound request (if any); the part that runs once the request has settled takes the
outcome of the request as an argument.  Every invocation reads the committed state: React
re-renders after each discrete event, so a later event sees the state the earlier one wrote.
An updater function passed to a state setter runs when React renders, after the handler that
queued it has left its `try`/`catch`; where an updater can throw, the handler returns either the
committed state or the error thrown by the render.
-/

set_option autoImplicit false

/-! ## JavaScript values -/

/-- The values a JSON payload or a form field can hold.  Numbers are the integers of magnitude
below 10^21, which JavaScript prints in plain decimal; fractions are left out, and no handler does
arithmetic on a value it receives.  An object is the list of its own
properties in insertion order. -/
inductive JsVal where
  | undefined
  | null
  | bool (b : Bool)
  | num (n : Int)
  | str (s : String)
  | arr (xs : List JsVal)
  | obj (fields : List (String × JsVal))

/-- A thrown `Error` (or the reason of a rejected promise), observed through `error.message`. -/
structure JsError where
  message : String
  deriving DecidableEq, Repr

/-- Own data properties of an object, in insertion order.  The property names of a JavaScript
object are distinct: a list represents an object when its `keys` have no duplicate. -/
abbrev JsObj := List (String × JsVal)

namespace JsVal

/-- JavaScript truthiness (`ToBoolean`). -/
def truthy : JsVal → Bool
  | undefined => false
  | null => false
  | bool b => b
  | num n => n != 0
  | str s => s != ""
  | arr _ => true
  | obj _ => true

/-- The value is `undefined` or `null`: the test made by `?.`. -/
def isNullish : JsVal → Bool
  | undefined => true
  | null => true
  | _ => false

mutual
/-- JavaScript `ToString`, as applied by a template literal and by `new Error(value)`. -/
def toStr : JsVal → String
  | undefined => "undefined"
  | null => "null"
  | bool b => if b then "true" else "false"
  | num n => toString n
  | str s => s
  | arr xs => joinElems xs
  | obj _ => "[object Object]"
/-- The text of `Array.prototype.join(",")`: `undefined` and `null` elements print as nothing. -/
def joinElems : List JsVal → String
  | [] => ""
  | x :: rest =>
    (match x with
      | undefined => ""
      | null => ""
      | v => toStr v)
      ++ (match rest with
        | [] => ""
        | _ => ",")
      ++ joinElems rest
end

end JsVal

/-- The message of the `TypeError` raised by reading property `key` of `undefined` or `null`
(the wording is the V8 engine's; no handler inspects it). -/
def nullishReadMessage (base : JsVal) (key : String) : String :=
  "Cannot read properties of " ++ base.toStr ++ " (reading '" ++ key ++ "')"

/-- Look up an own property of an object. -/
def JsObj.get (o : JsObj) (key : String) : Option JsVal :=
  (o.find? (fun p => p.1 == key)).map (fun p => p.2)

/-- The read `base.key` for the property names the handlers use (`candidates`, `content`, `parts`,
`text`, `error`, `message`, `response`, ...): none of them is inherited from a prototype, so only an
object can hold them.  Reading from `undefined` or `null` throws. -/
def getProp (base : JsVal) (key : String) : Except JsError JsVal :=
  match base with
  | .undefined => .error ⟨nullishReadMessage base key⟩
  | .null => .error ⟨nullishReadMessage base key⟩
  | .obj fields => .ok ((JsObj.get fields key).getD .undefined)
  | _ => .ok .undefined

/-- The read `base[i]`: an element of an array, a character of a string, the property named by the
decimal index of an object.  Reading from `undefined` or `null` throws.  (A character outside the
basic plane is read whole, where JavaScript reads its first code unit; the handlers only test the
result for nullishness and read named properties, which no string has.) -/
def getIndex (base : JsVal) (i : Nat) : Except JsError JsVal :=
  match base with
  | .undefined => .error ⟨nullishReadMessage base (toString i)⟩
  | .null => .error ⟨nullishReadMessage base (toString i)⟩
  | .arr xs => .ok (xs.getD i .undefined)
  | .str s => .ok (match s.toList.get? i with
      | some c => .str (String.singleton c)
      | none => .undefined)
  | .obj fields => .ok ((JsObj.get fields (toString i)).getD .undefined)
  | _ => .ok .undefined

/-- The optional read `base?.key`: `undefined` when `base` is nullish. -/
def optProp (base : JsVal) (key : String) : Except JsError JsVal :=
  if base.isNullish then .ok .undefined else getProp base key

/-- The white space and line terminator characters removed by `String.prototype.trim`. -/
def isJsWhiteSpace (c : Char) : Bool :=
  c.val == 0x09 || c.val == 0x0A || c.val == 0x0B || c.val == 0x0C || c.val == 0x0D
    || c.val == 0x20 || c.val == 0xA0 || c.val == 0x1680
    || (0x2000 ≤ c.val && c.val ≤ 0x200A)
    || c.val == 0x2028 || c.val == 0x2029 || c.val == 0x202F || c.val == 0x205F
    || c.val == 0x3000 || c.val == 0xFEFF

/-- The method `String.prototype.trim`. -/
def jsTrim (s : String) : String :=
  String.mk ((s.toList.dropWhile isJsWhiteSpace).reverse.dropWhile isJsWhiteSpace).reverse

/-- The test `!input.trim()`: the input is empty or white space only. -/
def isBlank (input : String) : Bool :=
  !(JsVal.str (jsTrim input)).truthy

/-! ## HTTP -/

/-- What `response.json()` settles to: the parsed body, or a rejection when the body is not JSON. -/
inductive Body where
  | json (v : JsVal)
  | invalid (e : JsError)

/-- A response of `fetch`. -/
structure Response where
  status : Nat
  body : Body

/-- The flag `response.ok`: the status is in the range 200-299. -/
def Response.ok (r : Response) : Bool :=
  200 ≤ r.status && r.status ≤ 299

/-- The call `await response.json()`. -/
def Response.json (r : Response) : Except JsError JsVal :=
  match r.body with
  | .json v => .ok v
  | .invalid e => .error e

/-- What `await fetch(...)` settles to. -/
inductive FetchResult where
  | rejected (e : JsError)
  | resolved (r : Response)

/-- The value of `await fetch(...)` inside a `try`. -/
def FetchResult.await (r : FetchResult) : Except JsError Response :=
  match r with
  | .rejected e => .error e
  | .resolved resp => .ok resp

/-! ## Chat transcript -/

/-- An entry of the `messages` state: `{ role, text }`. -/
structure ChatMessage where
  role : String
  text : JsVal

/-- State of the `AiChatbot` component. -/
structure ChatState where
  messages : List ChatMessage
  input : String
  isLoading : Bool

/-- The seed greeting every variant starts the transcript with. -/
def greeting : ChatMessage :=
  ⟨"bot", .str "Hello! I'm the Health Yaar AI assistant. How can I help you today? You can ask me general health questions."⟩

/-- Initial state of `AiChatbot`: `useState([greeting])`, `useState('')`, `useState(false)`. -/
def ChatState.initial : ChatState :=
  ⟨[greeting], "", false⟩

/-- The `onChange` handler of the chat input (the same in the three variants):
`setInput(e.target.value)`. -/
def setInput (value : String) (s : ChatState) : ChatState :=
  { s with input := value }

/-- One element of the `parts` array of a turn. -/
structure ApiPart where
  text : JsVal

/-- A turn in the format of the generative API: `{ role, parts: [{ text }] }`. -/
structure ApiTurn where
  role : String
  parts : List ApiPart

/-- The mapping `msg => ({ role: msg.role === 'bot' ? 'model' : 'user', parts: [{ text: msg.text }] })`. -/
def toApiTurn (msg : ChatMessage) : ApiTurn :=
  ⟨if msg.role = "bot" then "model" else "user", [⟨msg.text⟩]⟩

/-- The expression `result.candidates && result.candidates[0]?.content?.parts[0]?.text`. -/
def candidateText (result : JsVal) : Except JsError JsVal := do
  let candidates ← getProp result "candidates"
  if !candidates.truthy then
    return candidates
  let first ← getIndex candidates 0
  if first.isNullish then
    return .undefined
  let content ← getProp first "content"
  if content.isNullish then
    return .undefined
  let parts ← getProp content "parts"
  let part ← getIndex parts 0
  if part.isNullish then
    return .undefined
  getProp part "text"

/-- The expression `result.candidates[0].content.parts[0].text`. -/
def directText (result : JsVal) : Except JsError JsVal := do
  let candidates ← getProp result "candidates"
  let first ← getIndex candidates 0
  let content ← getProp first "content"
  let parts ← getProp content "parts"
  let part ← getIndex parts 0
  getProp part "text"

/-- The fallback text of the direct-call variants when the response carries no text. -/
def troubleText : String :=
  "I'm having trouble connecting right now. Please try again later."

/-- The lines shared by the direct-call variants:
`let botResponseText = "I'm having trouble ..."; if (candidateText) botResponseText = directText`. -/
def botResponseText (result : JsVal) : Except JsError JsVal := do
  let cond ← candidateText result
  if cond.truthy then
    directText result
  else
    return .str troubleText

/-! ## Chat handler of `health-app/src/App.jsx` -/

namespace HealthApp

/-- The interpolation `${biodata.key || 'Not provided'}` of a template literal. -/
def orNotProvided (biodata : JsObj) (key : String) : String :=
  let v := (biodata.get key).getD .undefined
  (if v.truthy then v else JsVal.str "Not provided").toStr

/-- The template literal `systemPrompt` of `handleSendMessage`. -/
def systemPrompt (biodata : JsObj) : String :=
  "You are a friendly and helpful AI health assistant called \"Health Yaar AI\". A user is asking a question.\n"
    ++ "        Here is some of their health data for context (use it to provide more relevant, general advice but do not diagnose):\n"
    ++ "        - Chronic Conditions: " ++ orNotProvided biodata "chronicDiseases" ++ "\n"
    ++ "        - Allergies: " ++ orNotProvided biodata "allergies" ++ "\n"
    ++ "        - Dietary Habits: " ++ orNotProvided biodata "dietaryHabits" ++ "\n"
    ++ "\n"
    ++ "        Please provide a helpful, safe, and general response.\n"
    ++ "        **IMPORTANT**: Do NOT provide a medical diagnosis or prescribe medication. Always include this disclaimer in bold at the end of your response: \"**Disclaimer: This is not medical advice. Please consult a healthcare professional for personal medical advice.**\"\n"
    ++ "        "

/-- The `systemInstruction` member of the payload. -/
structure SystemInstruction where
  role : String
  parts : List ApiPart

/-- The object `payload` that is serialised into the request body. -/
structure Payload where
  contents : List ApiTurn
  systemInstruction : SystemInstruction

/-- The arguments of the `fetch` call. -/
structure Request where
  url : String
  method : String
  payload : Payload

/-- The template literal `apiUrl`, with `apiKey = ""`. -/
def apiUrl : String :=
  "https://generativelanguage.googleapis.com/v1beta/models/gemini-1.5-flash:generateContent?key=" ++ ""

/-- The part of `handleSendMessage` that runs before `await fetch(...)`: the guard, the three
state updates, and the request that is issued (none when the guard returns). -/
def handleSendMessage (biodata : JsObj) (s : ChatState) : ChatState × Option Request :=
  if isBlank s.input || s.isLoading then
    (s, none)
  else
    let userMessage : ChatMessage := ⟨"user", .str s.input⟩
    let newMessages := s.messages ++ [userMessage]
    let chatHistoryForApi := (newMessages.drop 1).map toApiTurn
    let payload : Payload :=
      ⟨chatHistoryForApi, ⟨"system", [⟨.str (systemPrompt biodata)⟩]⟩⟩
    (⟨newMessages, "", true⟩, some ⟨apiUrl, "POST", payload⟩)

/-- The body of the `try` block from the settled `fetch` on: the value of `botResponseText`, or the
error that reaches `catch`. -/
def reply (r : FetchResult) : Except JsError JsVal := do
  let response ← r.await
  if !response.ok then
    let errorData ← response.json
    let error ← getProp errorData "error"
    let message ← optProp error "message"
    throw ⟨(if message.truthy then message
      else JsVal.str ("API Error: " ++ toString response.status)).toStr⟩
  let result ← response.json
  botResponseText result

/-- The part of `handleSendMessage` that runs once `fetch` has settled: the bot message appended by
the `try` block or by `catch`, then `finally`. -/
def handleSendMessage_settled (r : FetchResult) (s : ChatState) : ChatState :=
  match reply r with
  | .ok text => { s with messages := s.messages ++ [⟨"bot", text⟩], isLoading := false }
  | .error error =>
    { s with
      messages := s.messages ++ [⟨"bot", .str ("Sorry, an error occurred: " ++ error.message)⟩],
      isLoading := false }

/-- One invocation of `handleSendMessage` run to completion, the request settling with `r`. -/
def completeSend (biodata : JsObj) (r : FetchResult) (s : ChatState) : ChatState :=
  match handleSendMessage biodata s with
  | (s1, some _) => handleSendMessage_settled r s1
  | (s1, none) => s1

/-- A sequence of completed sends: the user types each text and sends it, and the request settles
before the next one. -/
def conversation (biodata : JsObj) (sends : List (String × FetchResult)) (s : ChatState) :
    ChatState :=
  sends.foldl (fun st p => completeSend biodata p.2 (setInput p.1 st)) s

end HealthApp

/-! ## Chat handler of `f/frontend/src/App.js` -/

namespace Frontend

/-- The JSON body sent to `/api/chat`. -/
structure ChatPayload where
  userInput : String
  chatHistory : List ApiTurn

/-- The arguments of the `fetch` call. -/
structure ChatRequest where
  url : String
  method : String
  payload : ChatPayload

/-- The part of `handleSendMessage` that runs before `await fetch(...)`.  The history is built from
`messages` as the handler read it, before the user message is appended. -/
def handleSendMessage (s : ChatState) : ChatState × Option ChatRequest :=
  if isBlank s.input || s.isLoading then
    (s, none)
  else
    let userMessage : ChatMessage := ⟨"user", .str s.input⟩
    let currentInput := s.input
    (⟨s.messages ++ [userMessage], "", true⟩,
      some ⟨"http://localhost:3001/api/chat", "POST", ⟨currentInput, s.messages.map toApiTurn⟩⟩)

/-- The body of the `try` block from the settled `fetch` on: the parsed `result`, which the block
hands to `setMessages` inside an updater without reading it, or the error that reaches `catch`. -/
def reply (r : FetchResult) : Except JsError JsVal := do
  let response ← r.await
  if !response.ok then
    let errorData ← response.json
    let message ← getProp errorData "message"
    throw ⟨"Server responded with status: " ++ toString response.status ++ ", Error: "
      ++ (if message.truthy then message else JsVal.str "Unknown error").toStr⟩
  let result ← response.json
  return result

/-- The fixed text appended by `catch`. -/
def errorText : String :=
  "Sorry, I encountered an error connecting to the AI. Please try again."

/-- The updater `prev => [...prev, { role: 'bot', text: result.response }]` passed to
`setMessages` by the `try` block.  React runs it when it renders, after the handler has left its
`try`/`catch`: the read `result.response` happens there, and it throws when `result` is `null`. -/
def appendReply (result : JsVal) (prev : List ChatMessage) :
    Except JsError (List ChatMessage) := do
  let text ← getProp result "response"
  return prev ++ [⟨"bot", text⟩]

/-- The part of `handleSendMessage` that runs once `fetch` has settled, followed by the render of
the updates it queued: the state React commits, or the error thrown by the render.  No error
boundary is mounted, so an error thrown by the render unmounts the application and no state is
left. -/
def handleSendMessage_settled (r : FetchResult) (s : ChatState) : Except JsError ChatState :=
  match reply r with
  | .ok result => do
    let messages ← appendReply result s.messages
    return { s with messages := messages, isLoading := false }
  | .error _ =>
    .ok { s with messages := s.messages ++ [⟨"bot", .str errorText⟩], isLoading := false }

/-- One invocation of `handleSendMessage` run to completion, the request settling with `r`. -/
def completeSend (r : FetchResult) (s : ChatState) : Except JsError ChatState :=
  match handleSendMessage s with
  | (s1, some _) => handleSendMessage_settled r s1
  | (s1, none) => .ok s1

end Frontend

/-! ## Chat handler of `tempCodeRunnerFile.js` -/

namespace TempCodeRunner

/-- The template literal `prompt` of `handleSendMessage`. -/
def prompt (biodata : JsObj) (input : String) : String :=
  "You are a friendly and helpful AI health assistant called \"Health Yaar AI\". A user is asking a question. \n"
    ++ "        Here is some of their health data for context (use it to provide more relevant, general advice but do not diagnose): \n"
    ++ "        - Chronic Conditions: " ++ HealthApp.orNotProvided biodata "chronicDiseases" ++ "\n"
    ++ "        - Allergies: " ++ HealthApp.orNotProvided biodata "allergies" ++ "\n"
    ++ "        - Dietary Habits: " ++ HealthApp.orNotProvided biodata "dietaryHabits" ++ "\n"
    ++ "        \n"
    ++ "        The user's question is: \"" ++ input ++ "\"\n"
    ++ "\n"
    ++ "        Please provide a helpful, safe, and general response. \n"
    ++ "        *IMPORTANT*: Do NOT provide a medical diagnosis or prescribe medication. Always include a disclaimer to consult a healthcare professional for personal medical advice.\n"
    ++ "        "

/-- The arguments of the `fetch` call; `payload = { contents: chatHistory }`. -/
structure Request where
  url : String
  method : String
  contents : List ApiTurn

/-- The template literal `apiUrl`, with `apiKey = ""`. -/
def apiUrl : String :=
  "https://generativelanguage.googleapis.com/v1beta/models/gemini-2.0-flash:generateContent?key=" ++ ""

/-- The part of `handleSendMessage` that runs before `await fetch(...)`. -/
def handleSendMessage (biodata : JsObj) (s : ChatState) : ChatState × Option Request :=
  if isBlank s.input || s.isLoading then
    (s, none)
  else
    let userMessage : ChatMessage := ⟨"user", .str s.input⟩
    let chatHistory : List ApiTurn := [⟨"user", [⟨.str (prompt biodata s.input)⟩]⟩]
    (⟨s.messages ++ [userMessage], "", true⟩, some ⟨apiUrl, "POST", chatHistory⟩)

/-- The body of the `try` block from the settled `fetch` on; the status is not inspected. -/
def reply (r : FetchResult) : Except JsError JsVal := do
  let response ← r.await
  let result ← response.json
  botResponseText result

/-- The fixed text appended by `catch`. -/
def errorText : String :=
  "Sorry, I encountered an error. Please check your connection and try again."

/-- The part of `handleSendMessage` that runs once `fetch` has settled. -/
def handleSendMessage_settled (r : FetchResult) (s : ChatState) : ChatState :=
  match reply r with
  | .ok text => { s with messages := s.messages ++ [⟨"bot", text⟩], isLoading := false }
  | .error _ => { s with messages := s.messages ++ [⟨"bot", .str errorText⟩], isLoading := false }

/-- One invocation of `handleSendMessage` run to completion, the request settling with `r`. -/
def completeSend (biodata : JsObj) (r : FetchResult) (s : ChatState) : ChatState :=
  match handleSendMessage biodata s with
  | (s1, some _) => handleSendMessage_settled r s1
  | (s1, none) => s1

end TempCodeRunner

/-! ## Objects as records -/

/-- The property names of an object. -/
def JsObj.keys (o : JsObj) : List String :=
  o.map (fun p => p.1)

/-- The assignment `o[key] = value`: an existing property keeps its place, a new one is added last. -/
def JsObj.set : JsObj → String → JsVal → JsObj
  | [], key, value => [(key, value)]
  | p :: rest, key, value =>
    if p.1 == key then (key, value) :: rest else p :: JsObj.set rest key value

/-- The spread `{ ...target, ...source }`: every property of `source` is assigned, in order, onto a
copy of `target`. -/
def JsObj.assign (target source : JsObj) : JsObj :=
  source.foldl (fun acc p => JsObj.set acc p.1 p.2) target

/-! ## The `App` component -/

/-- The `notification` state `{ show, message, type }` (`show` is written `shown`). -/
structure Notification where
  shown : Bool
  message : String
  type : String
  deriving DecidableEq, Repr

/-- A `File` picked in the upload input: its name, its declared MIME type and its bytes. -/
structure JsFile where
  name : String
  type : String
  content : List Nat
  deriving DecidableEq, Repr

/-- State of the `App` component, one field per `useState`, followed by the two pieces of the
environment the notification timer needs: the clock (`now`, in milliseconds) and the due times of
the pending `setTimeout` callbacks (`timers`).  The handles `auth` and `db` are modelled by whether
they are set. -/
structure AppState where
  auth : Bool
  db : Bool
  userId : Option String
  isAuthReady : Bool
  notification : Notification
  isSosModalOpen : Bool
  isChatbotVisible : Bool
  healthSummary : JsVal
  isSummaryLoading : Bool
  reportAnalysis : JsVal
  isReportLoading : Bool
  reportImage : Option JsFile
  reportImagePreview : Option String
  formData : JsObj
  now : Nat
  timers : List Nat

/-- The literal passed to `useState` for `formData` (the same in the three variants). -/
def initialFormData : JsObj :=
  [("fullName", .str ""), ("dob", .str ""), ("gender", .str "Male"), ("phone", .str ""),
    ("location", .str ""),
    ("height", .str ""), ("weight", .str ""), ("bloodGroup", .str ""), ("allergies", .str ""),
    ("chronicDiseases", .str ""), ("pastMedicalHistory", .str ""),
    ("smokingStatus", .str "Never"), ("alcoholConsumption", .str ""), ("dietaryHabits", .str ""),
    ("exercise", .str ""), ("sleepHours", .str ""), ("stressLevel", .str "Low")]

/-- The literal passed to `setFormData` by `handleLogout` (the same in the three variants). -/
def logoutFormData : JsObj :=
  [("fullName", .str ""), ("dob", .str ""), ("gender", .str "Male"), ("phone", .str ""),
    ("location", .str ""), ("height", .str ""), ("weight", .str ""), ("bloodGroup", .str ""),
    ("allergies", .str ""), ("chronicDiseases", .str ""), ("pastMedicalHistory", .str ""),
    ("smokingStatus", .str "Never"), ("alcoholConsumption", .str ""), ("dietaryHabits", .str ""),
    ("exercise", .str ""), ("sleepHours", .str ""), ("stressLevel", .str "Low")]

/-- The state of `App` on first render. -/
def AppState.initial : AppState where
  auth := false
  db := false
  userId := none
  isAuthReady := false
  notification := ⟨false, "", ""⟩
  isSosModalOpen := false
  isChatbotVisible := false
  healthSummary := .str ""
  isSummaryLoading := false
  reportAnalysis := .str ""
  isReportLoading := false
  reportImage := none
  reportImagePreview := none
  formData := initialFormData
  now := 0
  timers := []

/-- The helper `showNotification(message, type)`: shows the notification and schedules the callback
that hides whatever is shown 3000 ms later. -/
def showNotification (message : String) (type : String) (s : AppState) : AppState :=
  { s with notification := ⟨true, message, type⟩, timers := s.timers ++ [s.now + 3000] }

/-- The value of the `userId` state: `null` or a string. -/
def userIdValue (userId : Option String) : JsVal :=
  match userId with
  | none => .null
  | some uid => .str uid

/-- How a call to the auth provider or to the document store settles. -/
inductive Settled where
  | fulfilled
  | rejected (e : JsError)

/-- The contents of the document store: the fields of the document at each path, if it exists. -/
abbrev Store := List String → Option JsObj

/-- The path of `doc(db, 'artifacts', appId, 'users', userId, 'biodata', 'profile')`. -/
def docPath (appId userId : String) : List String :=
  ["artifacts", appId, "users", userId, "biodata", "profile"]

/-- Modelled from the spec: the store operation `setDoc(ref, data, options)` of the managed
document store, which is not part of the repository.  With `merge` the write is the field-level
merge of section 4.2 (the fields of `data` are written, the other stored fields are left
untouched, a missing document is created); without it the document is replaced. -/
def setDoc (store : Store) (path : List String) (data : JsObj) (merge : Bool) : Store :=
  fun p =>
    if p = path then
      (if merge then some (JsObj.assign ((store path).getD []) data) else some data)
    else store p

/-- The handler `handleInputChange`: `setFormData(prev => ({ ...prev, [name]: value }))`. -/
def handleInputChange (name value : String) (s : AppState) : AppState :=
  { s with formData := s.formData.set name (.str value) }

namespace Frontend

/-- The callback `fetchUserData`; `read` is how `getDoc` settles, the snapshot being the document
of `store` at the profile path. -/
def fetchUserData (appId : String) (read : Settled) (store : Store) (s : AppState) : AppState :=
  if !s.isAuthReady || !s.db || !(userIdValue s.userId).truthy then
    s
  else
    match read with
    | .fulfilled =>
      match store (docPath appId (userIdValue s.userId).toStr) with
      | some data =>
        showNotification "Profile loaded." "success"
          { s with formData := JsObj.assign s.formData data }
      | none =>
        showNotification "No existing profile found. Please fill out your details." "info" s
    | .rejected _ => showNotification "Failed to load your profile." "error" s

/-- The callback `handleFormSubmit`; `write` is how `setDoc` settles.  A rejected write leaves the
store as it was. -/
def handleFormSubmit (appId : String) (write : Settled) (store : Store) (s : AppState) :
    AppState × Store :=
  if !s.db || !(userIdValue s.userId).truthy then
    (showNotification "Cannot save. Not connected to services." "error" s, store)
  else
    match write with
    | .fulfilled =>
      (showNotification "Profile saved successfully!" "success" s,
        setDoc store (docPath appId (userIdValue s.userId).toStr) s.formData true)
    | .rejected _ =>
      (showNotification "Failed to save profile. Please try again." "error" s, store)

/-- The callback `handleLogout`; `signOut` is how `signOut(auth)` settles. -/
def handleLogout (signOut : Settled) (s : AppState) : AppState :=
  if !s.auth then
    s
  else
    match signOut with
    | .fulfilled =>
      showNotification "You have been logged out successfully." "success"
        { s with userId := none, formData := logoutFormData }
    | .rejected _ => showNotification "Logout failed. Please try again." "error" s

/-- The callback `handleReportFileChange`; `files` is `e.target.files` and `createObjectURL` is
the browser function `URL.createObjectURL`. -/
def handleReportFileChange (createObjectURL : JsFile → String) (files : List JsFile)
    (s : AppState) : AppState :=
  match files.head? with
  | some file =>
    if "image/".toList.isPrefixOf file.type.toList then
      { s with reportImage := some file, reportImagePreview := some (createObjectURL file) }
    else
      { showNotification "Please upload a valid image file (e.g., PNG, JPG)." "error" s with
        reportImage := none, reportImagePreview := none }
  | none =>
    { showNotification "Please upload a valid image file (e.g., PNG, JPG)." "error" s with
      reportImage := none, reportImagePreview := none }

end Frontend

namespace TempCodeRunner

/-- The callback `fetchUserData`; `read` is how `getDoc` settles. -/
def fetchUserData (appId : String) (read : Settled) (store : Store) (s : AppState) : AppState :=
  if !s.isAuthReady || !s.db || !(userIdValue s.userId).truthy then
    s
  else
    match read with
    | .fulfilled =>
      match store (docPath appId (userIdValue s.userId).toStr) with
      | some data => { s with formData := JsObj.assign s.formData data }
      | none => s
    | .rejected _ => showNotification "Failed to load your profile." "error" s

/-- The handler `handleReportFileChange`. -/
def handleReportFileChange (createObjectURL : JsFile → String) (files : List JsFile)
    (s : AppState) : AppState :=
  match files.head? with
  | some file =>
    if "image/".toList.isPrefixOf file.type.toList then
      { s with reportImage := some file, reportImagePreview := some (createObjectURL file) }
    else
      { showNotification "Please upload a valid image file." "error" s with
        reportImage := none, reportImagePreview := none }
  | none =>
    { showNotification "Please upload a valid image file." "error" s with
      reportImage := none, reportImagePreview := none }

end TempCodeRunner

/-! ## Identity resolution -/

/-- The sign-in call made by the identity-resolution callback. -/
inductive SignInCall where
  | withCustomToken (token : JsVal)
  | anonymously

/-- The expression `typeof __initial_auth_token !== 'undefined' ? __initial_auth_token : null`;
`initialAuthToken` is the value of the global, `undefined` when it is not declared. -/
def initialToken (initialAuthToken : JsVal) : JsVal :=
  match initialAuthToken with
  | .undefined => .null
  | v => v

namespace Frontend

/-- The synchronous part of the auth effect: `init` is whether `initializeApp`, `getAuth` and
`getFirestore` return or throw.  On success the two handles are stored and the callback below is
registered; a throw is caught and reported. -/
def authEffect (init : Settled) (s : AppState) : AppState :=
  match init with
  | .fulfilled => { s with auth := true, db := true }
  | .rejected _ => showNotification "Could not connect to health services." "error" s

/-- The `async` callback passed to `onAuthStateChanged`: `user` is the uid of the user the provider
reports (none for `null`), `signIn` is how the awaited sign-in settles.  The result is the state and
the sign-in calls made.  A rejected sign-in rejects the promise of the callback, which nobody
awaits: the statements after the `await` do not run and no `catch` is entered. -/
def onAuthStateChanged (user : Option String) (initialAuthToken : JsVal) (signIn : Settled)
    (s : AppState) : AppState × List SignInCall :=
  match user with
  | some uid => ({ s with userId := some uid, isAuthReady := true }, [])
  | none =>
    let token := initialToken initialAuthToken
    let call := if token.truthy then SignInCall.withCustomToken token else SignInCall.anonymously
    match signIn with
    | .fulfilled => ({ s with isAuthReady := true }, [call])
    | .rejected _ => (s, [call])

end Frontend

/-- The test `typeof __initial_auth_token !== 'undefined' && __initial_auth_token` of
`tempCodeRunnerFile.js`. -/
def tokenSupplied (initialAuthToken : JsVal) : Bool :=
  match initialAuthToken with
  | .undefined => false
  | v => v.truthy

namespace TempCodeRunner

/-- The `async` callback passed to `onAuthStateChanged`, with the test `tokenSupplied`. -/
def onAuthStateChanged (user : Option String) (initialAuthToken : JsVal) (signIn : Settled)
    (s : AppState) : AppState × List SignInCall :=
  match user with
  | some uid => ({ s with userId := some uid, isAuthReady := true }, [])
  | none =>
    let call :=
      if tokenSupplied initialAuthToken then SignInCall.withCustomToken initialAuthToken
      else SignInCall.anonymously
    match signIn with
    | .fulfilled => ({ s with isAuthReady := true }, [call])
    | .rejected _ => (s, [call])

end TempCodeRunner

/-! ## Summary and report handlers -/

/-- The read `formData.key` of a form field: `undefined` when the field is missing. -/
def JsObj.read (o : JsObj) (key : String) : JsVal :=
  (o.get key).getD .undefined

/-- How the `FileReader` of `fileToBase64` ends: `onload` with `reader.result` (the data URL of the
file), or `onerror`. -/
inductive ReadResult where
  | loaded (result : String)
  | failed (e : JsError)

/-- The pieces of a text between its commas. -/
def splitOnComma : List Char → List (List Char)
  | [] => [[]]
  | c :: cs =>
    if c = ',' then [] :: splitOnComma cs
    else
      match splitOnComma cs with
      | [] => [[c]]
      | piece :: pieces => (c :: piece) :: pieces

/-- The call `text.split(',')`. -/
def jsSplitComma (text : String) : List String :=
  (splitOnComma text.toList).map String.mk

/-- The helper `fileToBase64` (the same in the three variants): resolves with
`reader.result.split(',')[1]`, rejects with the error of the reader. -/
def fileToBase64 (read : ReadResult) : Except JsError JsVal :=
  match read with
  | .loaded result =>
    .ok (match (jsSplitComma result).get? 1 with
      | some piece => .str piece
      | none => .undefined)
  | .failed e => .error e

/-- The arguments of the `fetch` call of `handleAnalyzeReport` in the variants that go through a
backend; the body is `{ image: base64ImageData, mimeType: reportImage.type }`. -/
structure AnalyzeRequest where
  url : String
  method : String
  image : JsVal
  mimeType : String

namespace Frontend

/-- The arguments of the `fetch` call of `handleGenerateSummary`; the body is `{ formData }`. -/
structure SummaryRequest where
  url : String
  method : String
  formData : JsObj

/-- The part of `handleGenerateSummary` that runs before `await fetch(...)`. -/
def handleGenerateSummary (s : AppState) : AppState × Option SummaryRequest :=
  if !(s.formData.read "fullName").truthy && !(s.formData.read "height").truthy
      && !(s.formData.read "weight").truthy then
    (showNotification
      "Please provide your full name, height, and weight to generate a summary." "error" s, none)
  else
    ({ s with isSummaryLoading := true, healthSummary := .str "" },
      some ⟨"http://localhost:3001/api/generateHealthSummary", "POST", s.formData⟩)

/-- The body of the `try` block of `handleGenerateSummary` from the settled `fetch` on. -/
def summaryReply (r : FetchResult) : Except JsError JsVal := do
  let response ← r.await
  if !response.ok then
    let errorData ← response.json
    let message ← getProp errorData "message"
    throw ⟨"Server responded with status: " ++ toString response.status ++ ", Error: "
      ++ (if message.truthy then message else JsVal.str "Unknown error").toStr⟩
  let result ← response.json
  getProp result "summaryHtml"

/-- The part of `handleGenerateSummary` that runs once `fetch` has settled. -/
def handleGenerateSummary_settled (r : FetchResult) (s : AppState) : AppState :=
  match summaryReply r with
  | .ok html => { s with healthSummary := html, isSummaryLoading := false }
  | .error _ =>
    { s with
      healthSummary := .str "<p class=\"text-red-600\">An error occurred while generating the summary. Please check your connection and try again.</p>",
      isSummaryLoading := false }

/-- The part of `handleAnalyzeReport` up to `await fetch(...)`, the `await fileToBase64(...)`
included (no state is written between the two): the guard, the two state updates, then either the
request, or `catch` and `finally` when the encoding fails. -/
def handleAnalyzeReport (read : ReadResult) (s : AppState) : AppState × Option AnalyzeRequest :=
  match s.reportImage with
  | none =>
    (showNotification "Please upload a medical report image first to analyze." "error" s, none)
  | some reportImage =>
    match fileToBase64 read with
    | .ok base64ImageData =>
      ({ s with isReportLoading := true, reportAnalysis := .str "" },
        some ⟨"http://localhost:3001/api/analyzeReport", "POST", base64ImageData,
          reportImage.type⟩)
    | .error _ =>
      ({ s with
          reportAnalysis := .str "<p class=\"text-red-600\">An error occurred during analysis. Please check your connection and try again.</p>",
          isReportLoading := false }, none)

/-- The body of the `try` block of `handleAnalyzeReport` from the settled `fetch` on. -/
def analysisReply (r : FetchResult) : Except JsError JsVal := do
  let response ← r.await
  if !response.ok then
    let errorData ← response.json
    let message ← getProp errorData "message"
    throw ⟨"Server responded with status: " ++ toString response.status ++ ", Error: "
      ++ (if message.truthy then message else JsVal.str "Unknown error").toStr⟩
  let result ← response.json
  getProp result "analysisHtml"

/-- The part of `handleAnalyzeReport` that runs once `fetch` has settled. -/
def handleAnalyzeReport_settled (r : FetchResult) (s : AppState) : AppState :=
  match analysisReply r with
  | .ok html => { s with reportAnalysis := html, isReportLoading := false }
  | .error _ =>
    { s with
      reportAnalysis := .str "<p class=\"text-red-600\">An error occurred during analysis. Please check your connection and try again.</p>",
      isReportLoading := false }

/-- A click on the button `Generate Health Summary`, rendered with `disabled={isSummaryLoading}`:
a disabled button fires no `onClick`. -/
def clickGenerateSummary (s : AppState) : AppState × Option SummaryRequest :=
  if s.isSummaryLoading then (s, none) else handleGenerateSummary s

/-- A click on the button `Analyze Report`, rendered with
`disabled={!reportImage || isReportLoading}`. -/
def clickAnalyzeReport (read : ReadResult) (s : AppState) : AppState × Option AnalyzeRequest :=
  if s.reportImage.isNone || s.isReportLoading then (s, none) else handleAnalyzeReport read s

end Frontend

namespace HealthApp

/-- The part of `handleAnalyzeReport` up to `await fetch(...)`, the `await fileToBase64(...)`
included. -/
def handleAnalyzeReport (read : ReadResult) (s : AppState) : AppState × Option AnalyzeRequest :=
  match s.reportImage with
  | none => (showNotification "Please upload a report image first." "error" s, none)
  | some reportImage =>
    match fileToBase64 read with
    | .ok base64ImageData =>
      ({ s with isReportLoading := true, reportAnalysis := .str "" },
        some ⟨"/api/analyzeReportImage", "POST", base64ImageData, reportImage.type⟩)
    | .error error =>
      ({ s with
          reportAnalysis :=
            .str ("<p>An error occurred during analysis: " ++ error.message ++ "</p>"),
          isReportLoading := false }, none)

/-- The body of the `try` block of `handleAnalyzeReport` from the settled `fetch` on. -/
def analysisReply (r : FetchResult) : Except JsError JsVal := do
  let response ← r.await
  if !response.ok then
    let errorData ← response.json
    let error ← getProp errorData "error"
    let message ← optProp error "message"
    throw ⟨(if message.truthy then message
      else JsVal.str ("Server responded with status: " ++ toString response.status)).toStr⟩
  let result ← response.json
  let html ← getProp result "html"
  return (if html.truthy then html else .str "<p>Could not analyze the report.</p>")

/-- The part of `handleAnalyzeReport` that runs once `fetch` has settled. -/
def handleAnalyzeReport_settled (r : FetchResult) (s : AppState) : AppState :=
  match analysisReply r with
  | .ok html => { s with reportAnalysis := html, isReportLoading := false }
  | .error error =>
    { s with
      reportAnalysis := .str ("<p>An error occurred during analysis: " ++ error.message ++ "</p>"),
      isReportLoading := false }

end HealthApp

namespace TempCodeRunner

/-- An element of `parts` in the request of `handleAnalyzeReport`: `{ text }` or
`{ inlineData: { mimeType, data } }`. -/
inductive ReportPart where
  | text (text : String)
  | inlineData (mimeType : String) (data : JsVal)

/-- A turn of the request of `handleAnalyzeReport`. -/
structure ReportTurn where
  role : String
  parts : List ReportPart

/-- The arguments of the `fetch` call of `handleAnalyzeReport`; `payload = { contents }`. -/
structure ReportRequest where
  url : String
  method : String
  contents : List ReportTurn

/-- The constant `prompt` of `handleAnalyzeReport`. -/
def reportPrompt : String :=
  "You are a helpful medical assistant. Analyze the provided medical report image. Extract key metrics, their values, and their standard ranges. Provide a simple, easy-to-understand summary of the results. Do not provide a diagnosis. Conclude with '<h4>Summary</h4>' for the summary and a strong disclaimer in bold: '<b>This is not a medical diagnosis. Always consult a licensed healthcare professional for any health concerns.</b>'. Format the output using simple HTML with '<ul>' and '<li>' for lists."

/-- The part of `handleAnalyzeReport` up to `await fetch(...)`, the `await fileToBase64(...)`
included. -/
def handleAnalyzeReport (read : ReadResult) (s : AppState) : AppState × Option ReportRequest :=
  match s.reportImage with
  | none => (showNotification "Please upload a report image first." "error" s, none)
  | some _ =>
    match fileToBase64 read with
    | .ok base64ImageData =>
      ({ s with isReportLoading := true, reportAnalysis := .str "" },
        some ⟨apiUrl, "POST",
          [⟨"user", [.text reportPrompt, .inlineData "image/png" base64ImageData]⟩]⟩)
    | .error _ =>
      ({ s with
          reportAnalysis := .str "<p>An error occurred during analysis.</p>",
          isReportLoading := false }, none)

/-- The body of the `try` block of `handleAnalyzeReport` from the settled `fetch` on: the text of
the first candidate when there is one, else the fixed text. -/
def analysisReply (r : FetchResult) : Except JsError JsVal := do
  let response ← r.await
  let result ← response.json
  let cond ← candidateText result
  if cond.truthy then
    directText result
  else
    return .str "<p>Could not analyze the report.</p>"

/-- The part of `handleAnalyzeReport` that runs once `fetch` has settled. -/
def handleAnalyzeReport_settled (r : FetchResult) (s : AppState) : AppState :=
  match analysisReply r with
  | .ok html => { s with reportAnalysis := html, isReportLoading := false }
  | .error _ =>
    { s with
      reportAnalysis := .str "<p>An error occurred during analysis.</p>",
      isReportLoading := false }

end TempCodeRunner

/-! ## Notification timer -/

/-- The callback scheduled by `showNotification`:
`setNotification({ show: false, message: '', type: '' })`. -/
def hideNotification (s : AppState) : AppState :=
  { s with notification := ⟨false, "", ""⟩ }

/-- The passage of `ms` milliseconds with no other event: the clock advances, every pending timer
that has become due runs its callback, and the timers not yet due stay pending. -/
def advance (ms : Nat) (s : AppState) : AppState :=
  let now := s.now + ms
  let fired := (s.timers.filter (fun due => decide (due ≤ now))).foldl
    (fun st _ => hideNotification st) s
  { fired with now := now, timers := s.timers.filter (fun due => decide (now < due)) }

/-! ## Sequences of profile events -/

/-- The `name` attributes of the inputs, selects and text areas of the profile form of
`f/frontend/src/App.js`, in the order of the markup. -/
def formFieldNames : List String :=
  ["fullName", "dob", "gender", "phone", "location", "height", "weight", "bloodGroup",
    "allergies", "chronicDiseases", "pastMedicalHistory", "smokingStatus", "alcoholConsumption",
    "dietaryHabits", "exercise", "sleepHours", "stressLevel"]

/-- An event that touches the profile: a change of the form control called `name`, a profile load,
a profile save, a logout, or a report of the auth provider; each carries how its remote call
settles. -/
inductive ProfileEvent where
  | inputChange (name value : String)
  | load (read : Settled)
  | save (write : Settled)
  | logout (signOut : Settled)
  | authStateChanged (user : Option String) (initialAuthToken : JsVal) (signIn : Settled)

namespace Frontend

/-- The effect of one profile event on the state of `App` and on the document store. -/
def profileStep (appId : String) (w : AppState × Store) : ProfileEvent → AppState × Store
  | .inputChange name value => (handleInputChange name value w.1, w.2)
  | .load read => (fetchUserData appId read w.2 w.1, w.2)
  | .save write => handleFormSubmit appId write w.2 w.1
  | .logout signOut => (handleLogout signOut w.1, w.2)
  | .authStateChanged user initialAuthToken signIn =>
    ((onAuthStateChanged user initialAuthToken signIn w.1).1, w.2)

/-- The effect of a sequence of profile events, each handled to completion before the next. -/
def profileRun (appId : String) (events : List ProfileEvent) (w : AppState × Store) :
    AppState × Store :=
  events.foldl (profileStep appId) w

end Frontend

namespace TempCodeRunner

/-- The handler `handleLogout`; `signOut` is how `signOut(auth)` settles. -/
def handleLogout (signOut : Settled) (s : AppState) : AppState :=
  if !s.auth then
    s
  else
    match signOut with
    | .fulfilled =>
      showNotification "You have been logged out." "success"
        { s with userId := none, formData := logoutFormData }
    | .rejected _ => showNotification "Logout failed." "error" s

end TempCodeRunner

/-! ## Lemmas on the chat handlers -/

theorem isBlank_eq_false_iff (input : String) : isBlank input = false ↔ jsTrim input ≠ "" := by
  simp [isBlank, JsVal.truthy]

theorem isBlank_eq_true_iff (input : String) : isBlank input = true ↔ jsTrim input = "" := by
  simp [isBlank, JsVal.truthy]

theorem HealthApp.sendHistory_idle (biodata : JsObj) (s : ChatState)
    (hinput : jsTrim s.input ≠ "") (hidle : s.isLoading = false) :
    HealthApp.handleSendMessage biodata s
      = (⟨s.messages ++ [⟨"user", .str s.input⟩], "", true⟩,
          some ⟨HealthApp.apiUrl, "POST",
            ⟨((s.messages ++ [ChatMessage.mk "user" (.str s.input)]).drop 1).map toApiTurn,
              ⟨"system", [⟨.str (HealthApp.systemPrompt biodata)⟩]⟩⟩⟩) := by
  have hb : isBlank s.input = false := (isBlank_eq_false_iff _).2 hinput
  simp [HealthApp.handleSendMessage, hb, hidle]

theorem HealthApp.sendHistory_ignored (biodata : JsObj) (s : ChatState)
    (h : jsTrim s.input = "" ∨ s.isLoading = true) :
    HealthApp.handleSendMessage biodata s = (s, none) := by
  have hb : (isBlank s.input || s.isLoading) = true := by
    rcases h with h | h
    · simp [(isBlank_eq_true_iff _).2 h]
    · simp [h]
  simp [HealthApp.handleSendMessage, hb]

theorem Frontend.sendProxied_idle (s : ChatState)
    (hinput : jsTrim s.input ≠ "") (hidle : s.isLoading = false) :
    Frontend.handleSendMessage s
      = (⟨s.messages ++ [⟨"user", .str s.input⟩], "", true⟩,
          some ⟨"http://localhost:3001/api/chat", "POST",
            ⟨s.input, s.messages.map toApiTurn⟩⟩) := by
  have hb : isBlank s.input = false := (isBlank_eq_false_iff _).2 hinput
  simp [Frontend.handleSendMessage, hb, hidle]

theorem Frontend.sendProxied_ignored (s : ChatState)
    (h : jsTrim s.input = "" ∨ s.isLoading = true) :
    Frontend.handleSendMessage s = (s, none) := by
  have hb : (isBlank s.input || s.isLoading) = true := by
    rcases h with h | h
    · simp [(isBlank_eq_true_iff _).2 h]
    · simp [h]
  simp [Frontend.handleSendMessage, hb]

theorem TempCodeRunner.sendPrompt_idle (biodata : JsObj) (s : ChatState)
    (hinput : jsTrim s.input ≠ "") (hidle : s.isLoading = false) :
    TempCodeRunner.handleSendMessage biodata s
      = (⟨s.messages ++ [⟨"user", .str s.input⟩], "", true⟩,
          some ⟨TempCodeRunner.apiUrl, "POST",
            [⟨"user", [⟨.str (TempCodeRunner.prompt biodata s.input)⟩]⟩]⟩) := by
  have hb : isBlank s.input = false := (isBlank_eq_false_iff _).2 hinput
  simp [TempCodeRunner.handleSendMessage, hb, hidle]

/-- A completed send appends the user message and exactly one bot message, and ends idle. -/
theorem HealthApp.completeSend_appends (biodata : JsObj) (r : FetchResult) (s : ChatState)
    (hinput : jsTrim s.input ≠ "") (hidle : s.isLoading = false) :
    ∃ text : JsVal,
      HealthApp.completeSend biodata r s
        = ⟨s.messages ++ [⟨"user", .str s.input⟩, ⟨"bot", text⟩], "", false⟩ := by
  unfold HealthApp.completeSend
  rw [HealthApp.sendHistory_idle biodata s hinput hidle]
  simp only [HealthApp.handleSendMessage_settled]
  cases reply_eq : HealthApp.reply r with
  | ok text => exact ⟨text, by simp⟩
  | error e => exact ⟨.str ("Sorry, an error occurred: " ++ e.message), by simp⟩

theorem flatten_replicate_succ {α : Type} (n : Nat) (l : List α) :
    (List.replicate (n + 1) l).flatten = (List.replicate n l).flatten ++ l := by
  rw [List.replicate_succ', List.flatten_append]
  simp

/-- After any number of completed sends the transcript is the greeting followed by user and bot
messages in turn, and the component is idle. -/
theorem HealthApp.conversation_roles (biodata : JsObj) (sends : List (String × FetchResult))
    (hsends : ∀ p ∈ sends, jsTrim p.1 ≠ "") (s : ChatState) (k : Nat)
    (hidle : s.isLoading = false)
    (hroles : s.messages.map (fun m => m.role)
      = "bot" :: (List.replicate k ["user", "bot"]).flatten) :
    (HealthApp.conversation biodata sends s).isLoading = false ∧
    (HealthApp.conversation biodata sends s).messages.map (fun m => m.role)
      = "bot" :: (List.replicate (k + sends.length) ["user", "bot"]).flatten := by
  induction sends generalizing s k with
  | nil => exact ⟨hidle, by simpa [HealthApp.conversation] using hroles⟩
  | cons p rest ih =>
    have hp : jsTrim p.1 ≠ "" := hsends p (List.mem_cons_self _ _)
    obtain ⟨text, htext⟩ := HealthApp.completeSend_appends biodata p.2
      (setInput p.1 s) hp hidle
    have hstep : HealthApp.conversation biodata (p :: rest) s
        = HealthApp.conversation biodata rest
            (HealthApp.completeSend biodata p.2 (setInput p.1 s)) := by
      simp [HealthApp.conversation]
    rw [hstep, htext]
    have hroles1 : (s.messages ++ [ChatMessage.mk "user" (.str p.1), ChatMessage.mk "bot" text]).map
          (fun m => m.role)
        = "bot" :: (List.replicate (k + 1) ["user", "bot"]).flatten := by
      rw [List.map_append, hroles, flatten_replicate_succ]
      simp
    have := ih (fun q hq => hsends q (List.mem_cons_of_mem _ hq))
      ⟨s.messages ++ [⟨"user", .str p.1⟩, ⟨"bot", text⟩], "", false⟩ (k + 1) rfl
      (by simpa [setInput] using hroles1)
    simpa [setInput, Nat.add_assoc, Nat.add_comm 1] using this

theorem map_role_turns (n : Nat) :
    ((List.replicate n ["user", "bot"]).flatten).map
        (fun r => if r = "bot" then "model" else "user")
      = (List.replicate n ["user", "model"]).flatten := by
  induction n with
  | zero => simp
  | succ n ih =>
    rw [flatten_replicate_succ, flatten_replicate_succ, List.map_append, ih]
    simp

/-! ## Chat history sent by `health-app/src/App.jsx` -/

/-- C1: in `health-app/src/App.jsx`, when the transcript starts with the seed greeting, the input
is non-blank and no request is pending, `handleSendMessage` issues a request whose `contents` is
the transcript without the greeting, followed by the new user message, in the same order: each
message is mapped to a turn with its text unchanged and role `model` if and only if the message
role is `bot` (otherwise `user`), and the length is that of the extended transcript minus one. -/
theorem HealthApp.contents_is_transcript_without_greeting (biodata : JsObj) (s : ChatState)
    (hfirst : s.messages.head? = some greeting) (hinput : jsTrim s.input ≠ "")
    (hidle : s.isLoading = false) :
    ∃ (req : HealthApp.Request) (rest : List ChatMessage),
      (HealthApp.handleSendMessage biodata s).2 = some req ∧
      s.messages = greeting :: rest ∧
      req.payload.contents
        = (rest ++ [ChatMessage.mk "user" (.str s.input)]).map
            (fun m => ApiTurn.mk (if m.role = "bot" then "model" else "user")
              [ApiPart.mk m.text]) ∧
      req.payload.contents.length + 1
        = (s.messages ++ [ChatMessage.mk "user" (.str s.input)]).length := by
  rw [HealthApp.sendHistory_idle biodata s hinput hidle]
  cases hm : s.messages with
  | nil => simp [hm] at hfirst
  | cons first rest =>
    have hg : first = greeting := by simpa [hm] using hfirst
    subst hg
    refine ⟨_, rest, rfl, rfl, ?_, ?_⟩
    · simp [toApiTurn]
    · simp

theorem HealthApp.contents_is_transcript_without_greeting_witness :
    (ChatState.mk [greeting, ⟨"user", .str "Hi"⟩, ⟨"bot", .str "Hello!"⟩] "Is tea healthy?"
        false).messages.head? = some greeting ∧
    jsTrim "Is tea healthy?" ≠ "" ∧
    ∃ (req : HealthApp.Request) (rest : List ChatMessage),
      (HealthApp.handleSendMessage []
        ⟨[greeting, ⟨"user", .str "Hi"⟩, ⟨"bot", .str "Hello!"⟩], "Is tea healthy?", false⟩).2
        = some req ∧
      [greeting, ChatMessage.mk "user" (.str "Hi"), ChatMessage.mk "bot" (.str "Hello!")]
        = greeting :: rest ∧
      req.payload.contents
        = (rest ++ [ChatMessage.mk "user" (.str "Is tea healthy?")]).map
            (fun m => ApiTurn.mk (if m.role = "bot" then "model" else "user")
              [ApiPart.mk m.text]) ∧
      req.payload.contents.length + 1 = 4 :=
  ⟨rfl, by decide,
    HealthApp.contents_is_transcript_without_greeting []
      ⟨[greeting, ⟨"user", .str "Hi"⟩, ⟨"bot", .str "Hello!"⟩], "Is tea healthy?", false⟩
      rfl (by decide) rfl⟩

/-- C2: in `health-app/src/App.jsx`, starting from the initial transcript, after `n` completed
sends (each with a non-blank input, whatever the outcome of its request) the next send issues a
request whose turn sequence has length `2n+1` and whose roles are `user, model` repeated `n` times
followed by `user`; and for user turns `A` then `B`, with `R` the reply shown for `A`, the second
send issues exactly `[A (user), R (model), B (user)]`. -/
theorem HealthApp.outbound_turns_alternate (biodata : JsObj) :
    (∀ (sends : List (String × FetchResult)) (next : String),
      (∀ p ∈ sends, jsTrim p.1 ≠ "") → jsTrim next ≠ "" →
      ∃ req : HealthApp.Request,
        (HealthApp.handleSendMessage biodata
          (setInput next (HealthApp.conversation biodata sends ChatState.initial))).2
          = some req ∧
        req.payload.contents.length = 2 * sends.length + 1 ∧
        req.payload.contents.map (fun t => t.role)
          = (List.replicate sends.length ["user", "model"]).flatten ++ ["user"]) ∧
    (∀ (A B : String) (r : FetchResult), jsTrim A ≠ "" → jsTrim B ≠ "" →
      ∃ (R : JsVal) (req : HealthApp.Request),
        (HealthApp.conversation biodata [(A, r)] ChatState.initial).messages
          = [greeting, ⟨"user", .str A⟩, ⟨"bot", R⟩] ∧
        (HealthApp.handleSendMessage biodata
          (setInput B (HealthApp.conversation biodata [(A, r)] ChatState.initial))).2
          = some req ∧
        req.payload.contents
          = [⟨"user", [⟨.str A⟩]⟩, ⟨"model", [⟨R⟩]⟩, ⟨"user", [⟨.str B⟩]⟩]) := by
  constructor
  · intro sends next hsends hnext
    obtain ⟨hidle, hroles⟩ := HealthApp.conversation_roles biodata sends hsends
      ChatState.initial 0 rfl (by simp [ChatState.initial, greeting])
    rw [HealthApp.sendHistory_idle biodata _ (by simpa [setInput] using hnext)
      (by simpa [setInput] using hidle)]
    have hmap : ((HealthApp.conversation biodata sends ChatState.initial).messages.map
        toApiTurn).map (fun t => t.role)
          = "model" :: (List.replicate sends.length ["user", "model"]).flatten := by
      have := congrArg (List.map (fun r => if r = "bot" then "model" else "user")) hroles
      rw [List.map_cons, map_role_turns] at this
      simpa [toApiTurn, Function.comp_def] using this
    have hlen := congrArg List.length hmap
    simp only [List.length_map, List.length_cons, List.length_flatten, List.map_replicate,
      List.sum_replicate, List.length_nil, Nat.zero_add, smul_eq_mul] at hlen
    refine ⟨_, rfl, ?_, ?_⟩
    · simp [setInput]
      omega
    · simp only [setInput, List.map_drop, List.map_append, List.map_map]
      rw [List.map_map] at hmap
      rw [hmap]
      simp [toApiTurn]
  · intro A B r hA hB
    obtain ⟨text, htext⟩ := HealthApp.completeSend_appends biodata r
      (setInput A ChatState.initial) hA rfl
    have hconv : HealthApp.conversation biodata [(A, r)] ChatState.initial
        = ⟨[greeting, ⟨"user", .str A⟩, ⟨"bot", text⟩], "", false⟩ := by
      have hstep : HealthApp.conversation biodata [(A, r)] ChatState.initial
          = HealthApp.completeSend biodata r (setInput A ChatState.initial) := by
        simp [HealthApp.conversation]
      rw [hstep, htext]
      simp [setInput, ChatState.initial]
    refine ⟨text, ?_⟩
    rw [hconv, HealthApp.sendHistory_idle biodata _
      (by simpa [setInput] using hB) rfl]
    exact ⟨_, rfl, rfl, by simp [setInput, toApiTurn, greeting]⟩

theorem HealthApp.outbound_turns_alternate_witness :
    (∀ p ∈ [("Is tea healthy?", FetchResult.rejected ⟨"Failed to fetch"⟩)], jsTrim p.1 ≠ "") ∧
    jsTrim "And coffee?" ≠ "" ∧
    ∃ req : HealthApp.Request,
      (HealthApp.handleSendMessage []
        (setInput "And coffee?"
          (HealthApp.conversation []
            [("Is tea healthy?", FetchResult.rejected ⟨"Failed to fetch"⟩)]
            ChatState.initial))).2 = some req ∧
      req.payload.contents.length = 2 * 1 + 1 ∧
      req.payload.contents.map (fun t => t.role)
        = (List.replicate 1 ["user", "model"]).flatten ++ ["user"] :=
  have hsends : ∀ p ∈ [("Is tea healthy?", FetchResult.rejected ⟨"Failed to fetch"⟩)],
      jsTrim p.1 ≠ "" := by
    intro p hp
    rw [List.mem_singleton] at hp
    subst hp
    decide
  ⟨hsends, by decide,
    (HealthApp.outbound_turns_alternate []).1
      [("Is tea healthy?", FetchResult.rejected ⟨"Failed to fetch"⟩)] "And coffee?"
      hsends (by decide)⟩

/-! ## The guard of the chat send handler -/

/-- C3: `handleSendMessage` of `health-app/src/App.jsx` and of `f/frontend/src/App.js` issues a
request if and only if the input is non-blank after trimming and `isLoading` is false; invoked with
a blank input or while `isLoading` is true it issues no request and leaves the state (transcript,
input, loading flag) unchanged; hence of two triggers in a row, whatever is typed in between, the
first issues a request and the second none: exactly one outbound call. -/
theorem handleSendMessage_guarded :
    (∀ (biodata : JsObj) (s : ChatState),
      ((HealthApp.handleSendMessage biodata s).2.isSome = true
        ↔ (jsTrim s.input ≠ "" ∧ s.isLoading = false)) ∧
      ((jsTrim s.input = "" ∨ s.isLoading = true) →
        HealthApp.handleSendMessage biodata s = (s, none)) ∧
      ((jsTrim s.input ≠ "" ∧ s.isLoading = false) → ∀ typed : String,
        ((HealthApp.handleSendMessage biodata s).2.toList
          ++ (HealthApp.handleSendMessage biodata
              (setInput typed (HealthApp.handleSendMessage biodata s).1)).2.toList).length
          = 1)) ∧
    (∀ (s : ChatState),
      ((Frontend.handleSendMessage s).2.isSome = true
        ↔ (jsTrim s.input ≠ "" ∧ s.isLoading = false)) ∧
      ((jsTrim s.input = "" ∨ s.isLoading = true) →
        Frontend.handleSendMessage s = (s, none)) ∧
      ((jsTrim s.input ≠ "" ∧ s.isLoading = false) → ∀ typed : String,
        ((Frontend.handleSendMessage s).2.toList
          ++ (Frontend.handleSendMessage
              (setInput typed (Frontend.handleSendMessage s).1)).2.toList).length
          = 1)) := by
  constructor
  · intro biodata s
    refine ⟨?_, HealthApp.sendHistory_ignored biodata s, ?_⟩
    · constructor
      · intro h
        by_contra hc
        have hc1 : jsTrim s.input = "" ∨ s.isLoading = true := by
          by_cases h1 : jsTrim s.input = ""
          · exact Or.inl h1
          · right
            cases hl : s.isLoading with
            | true => rfl
            | false => exact absurd ⟨h1, hl⟩ hc
        rw [HealthApp.sendHistory_ignored biodata s hc1] at h
        simp at h
      · rintro ⟨h1, h2⟩
        rw [HealthApp.sendHistory_idle biodata s h1 h2]
        rfl
    · rintro ⟨h1, h2⟩ typed
      rw [HealthApp.sendHistory_idle biodata s h1 h2]
      rw [HealthApp.sendHistory_ignored biodata _ (Or.inr rfl)]
      simp
  · intro s
    refine ⟨?_, Frontend.sendProxied_ignored s, ?_⟩
    · constructor
      · intro h
        by_contra hc
        have hc1 : jsTrim s.input = "" ∨ s.isLoading = true := by
          by_cases h1 : jsTrim s.input = ""
          · exact Or.inl h1
          · right
            cases hl : s.isLoading with
            | true => rfl
            | false => exact absurd ⟨h1, hl⟩ hc
        rw [Frontend.sendProxied_ignored s hc1] at h
        simp at h
      · rintro ⟨h1, h2⟩
        rw [Frontend.sendProxied_idle s h1 h2]
        rfl
    · rintro ⟨h1, h2⟩ typed
      rw [Frontend.sendProxied_idle s h1 h2]
      rw [Frontend.sendProxied_ignored _ (Or.inr rfl)]
      simp

theorem handleSendMessage_guarded_witness :
    (jsTrim "Is tea healthy?" ≠ "" ∧ ChatState.initial.isLoading = false) ∧
    ((HealthApp.handleSendMessage [] (setInput "Is tea healthy?" ChatState.initial)).2.toList
      ++ (HealthApp.handleSendMessage []
          (setInput "Is tea healthy?"
            (HealthApp.handleSendMessage []
              (setInput "Is tea healthy?" ChatState.initial)).1)).2.toList).length = 1 ∧
    ((Frontend.handleSendMessage (setInput "Is tea healthy?" ChatState.initial)).2.toList
      ++ (Frontend.handleSendMessage
          (setInput "Is tea healthy?"
            (Frontend.handleSendMessage
              (setInput "Is tea healthy?" ChatState.initial)).1)).2.toList).length = 1 :=
  ⟨⟨by decide, rfl⟩,
    (handleSendMessage_guarded.1 [] (setInput "Is tea healthy?" ChatState.initial)).2.2
      ⟨by decide, rfl⟩ "Is tea healthy?",
    (handleSendMessage_guarded.2 (setInput "Is tea healthy?" ChatState.initial)).2.2
      ⟨by decide, rfl⟩ "Is tea healthy?"⟩

/-! ## Replies of the direct-call variants -/

theorem getProp_ok_not_nullish (base : JsVal) (key : String) (v : JsVal)
    (h : getProp base key = .ok v) : base.isNullish = false := by
  cases base <;> simp [getProp, JsVal.isNullish] at h ⊢

theorem getIndex_ok_not_nullish (base : JsVal) (i : Nat) (v : JsVal)
    (h : getIndex base i = .ok v) : base.isNullish = false := by
  cases base <;> simp [getIndex, JsVal.isNullish] at h ⊢

theorem getIndex_ok_truthy (base : JsVal) (i : Nat) (v : JsVal)
    (h : getIndex base i = .ok v) (hv : v.isNullish = false) : base.truthy = true := by
  cases base with
  | undefined => simp [getIndex] at h
  | null => simp [getIndex] at h
  | bool b =>
    simp only [getIndex, Except.ok.injEq] at h
    subst h
    simp [JsVal.isNullish] at hv
  | num n =>
    simp only [getIndex, Except.ok.injEq] at h
    subst h
    simp [JsVal.isNullish] at hv
  | str s =>
    simp only [getIndex, Except.ok.injEq] at h
    have hne : s ≠ "" := by
      intro hs
      subst hs
      simp at h
      subst h
      simp [JsVal.isNullish] at hv
    simpa [JsVal.truthy] using hne
  | arr xs => rfl
  | obj fields => rfl

/-- When the plain read `result.candidates[0].content.parts[0].text` yields a truthy value, the
guarded read yields the same value and `botResponseText` is that value. -/
theorem botResponseText_of_directText (result v : JsVal)
    (h : directText result = .ok v) (hv : v.truthy = true) :
    botResponseText result = .ok v := by
  have hd := h
  unfold directText at h
  cases h1 : getProp result "candidates" with
  | error e => simp [h1, bind, Except.bind] at h
  | ok candidates =>
    cases h2 : getIndex candidates 0 with
    | error e => simp [h1, h2, bind, Except.bind] at h
    | ok first =>
      cases h3 : getProp first "content" with
      | error e => simp [h1, h2, h3, bind, Except.bind] at h
      | ok content =>
        cases h4 : getProp content "parts" with
        | error e => simp [h1, h2, h3, h4, bind, Except.bind] at h
        | ok parts =>
          cases h5 : getIndex parts 0 with
          | error e => simp [h1, h2, h3, h4, h5, bind, Except.bind] at h
          | ok part =>
            have h6 : getProp part "text" = .ok v := by
              simpa [h1, h2, h3, h4, h5, bind, Except.bind] using h
            have n1 := getProp_ok_not_nullish _ _ _ h3
            have n2 := getProp_ok_not_nullish _ _ _ h4
            have n3 := getProp_ok_not_nullish _ _ _ h6
            have t1 := getIndex_ok_truthy _ _ _ h2 n1
            have hc : candidateText result = .ok v := by
              simp [candidateText, h1, h2, h3, h4, h5, h6, n1, n2, n3, t1, bind, Except.bind,
                pure, Except.pure]
            simp [botResponseText, hc, hv, hd, bind, Except.bind]

/-- C4: in `health-app/src/App.jsx` and `tempCodeRunnerFile.js`, for every prior transcript `T`,
non-blank input and non-empty string `X`, when the request settles with a 2xx response whose
`candidates[0].content.parts[0].text` is `X`, the transcript afterwards is `T` followed by the user
message and exactly one `bot` message whose text is `X`. -/
theorem direct_reply_text_appended (biodata : JsObj) (T : List ChatMessage) (input X : String)
    (status : Nat) (result : JsVal)
    (hinput : jsTrim input ≠ "") (hX : X ≠ "")
    (hstatus : 200 ≤ status ∧ status ≤ 299)
    (htext : directText result = .ok (.str X)) :
    (HealthApp.completeSend biodata (.resolved ⟨status, .json result⟩) ⟨T, input, false⟩).messages
      = T ++ [ChatMessage.mk "user" (.str input), ChatMessage.mk "bot" (.str X)] ∧
    (TempCodeRunner.completeSend biodata (.resolved ⟨status, .json result⟩)
        ⟨T, input, false⟩).messages
      = T ++ [ChatMessage.mk "user" (.str input), ChatMessage.mk "bot" (.str X)] := by
  have hbot : botResponseText result = .ok (.str X) :=
    botResponseText_of_directText result (.str X) htext (by simpa [JsVal.truthy] using hX)
  have hok : Response.ok ⟨status, .json result⟩ = true := by
    simp [Response.ok, hstatus.1, hstatus.2]
  constructor
  · unfold HealthApp.completeSend
    rw [HealthApp.sendHistory_idle biodata ⟨T, input, false⟩ hinput rfl]
    simp [HealthApp.handleSendMessage_settled, HealthApp.reply, FetchResult.await, hok,
      Response.json, hbot, bind, Except.bind, pure, Except.pure]
  · unfold TempCodeRunner.completeSend
    rw [TempCodeRunner.sendPrompt_idle biodata ⟨T, input, false⟩ hinput rfl]
    simp [TempCodeRunner.handleSendMessage_settled, TempCodeRunner.reply, FetchResult.await,
      Response.json, hbot, bind, Except.bind]

theorem direct_reply_text_appended_witness :
    jsTrim "Is tea healthy?" ≠ "" ∧ "Yes, in moderation." ≠ "" ∧ (200 ≤ 200 ∧ 200 ≤ 299) ∧
    directText (.obj [("candidates", .arr [.obj [("content",
        .obj [("parts", .arr [.obj [("text", .str "Yes, in moderation.")]]),
          ("role", .str "model")])]])])
      = .ok (.str "Yes, in moderation.") ∧
    (HealthApp.completeSend [] (.resolved ⟨200, .json (.obj [("candidates", .arr [.obj [("content",
        .obj [("parts", .arr [.obj [("text", .str "Yes, in moderation.")]]),
          ("role", .str "model")])]])])⟩) ⟨[greeting], "Is tea healthy?", false⟩).messages
      = [greeting] ++ [ChatMessage.mk "user" (.str "Is tea healthy?"),
          ChatMessage.mk "bot" (.str "Yes, in moderation.")] ∧
    (TempCodeRunner.completeSend [] (.resolved ⟨200, .json (.obj [("candidates",
        .arr [.obj [("content",
          .obj [("parts", .arr [.obj [("text", .str "Yes, in moderation.")]]),
            ("role", .str "model")])]])])⟩) ⟨[greeting], "Is tea healthy?", false⟩).messages
      = [greeting] ++ [ChatMessage.mk "user" (.str "Is tea healthy?"),
          ChatMessage.mk "bot" (.str "Yes, in moderation.")] :=
  ⟨by decide, by decide, by decide, rfl,
    direct_reply_text_appended [] [greeting] "Is tea healthy?" "Yes, in moderation." 200
      (.obj [("candidates", .arr [.obj [("content",
        .obj [("parts", .arr [.obj [("text", .str "Yes, in moderation.")]]),
          ("role", .str "model")])]])])
      (by decide) (by decide) (by decide) rfl⟩

/-! ## Failures of the chat request -/

theorem Response.ok_eq_false (status : Nat) (body : Body)
    (hstatus : ¬ (200 ≤ status ∧ status ≤ 299)) : Response.ok ⟨status, body⟩ = false := by
  simp only [Response.ok, Bool.and_eq_false_iff, decide_eq_false_iff_not]
  by_cases h : 200 ≤ status
  · exact Or.inr (fun h2 => hstatus ⟨h, h2⟩)
  · exact Or.inl h

/-- In `f/frontend/src/App.js` a response with a non-2xx status always ends in `catch`. -/
theorem Frontend.proxied_reply_non_ok (status : Nat) (body : Body)
    (hstatus : ¬ (200 ≤ status ∧ status ≤ 299)) :
    ∃ e : JsError, Frontend.reply (.resolved ⟨status, body⟩) = .error e := by
  have hok := Response.ok_eq_false status body hstatus
  cases body with
  | invalid e =>
    exact ⟨e, by simp [Frontend.reply, FetchResult.await, hok, Response.json, bind, Except.bind]⟩
  | json errorData =>
    cases hm : getProp errorData "message" with
    | error e =>
      exact ⟨e, by
        simp [Frontend.reply, FetchResult.await, hok, Response.json, hm, bind, Except.bind]⟩
    | ok message =>
      exact ⟨⟨"Server responded with status: " ++ toString status ++ ", Error: "
          ++ (if message.truthy then message else JsVal.str "Unknown error").toStr⟩, by
        simp [Frontend.reply, FetchResult.await, hok, Response.json, hm, bind, Except.bind,
          throw, throwThe, MonadExceptOf.throw]⟩

/-- C5: in `f/frontend/src/App.js`, for every prior transcript `T` and non-blank input, when
`/api/chat` answers with a non-2xx status, whatever its body (JSON or not), the handler completes
and the render commits a state whose transcript is `T` followed by the user message and exactly
one `bot` message whose text is
"Sorry, I encountered an error connecting to the AI. Please try again." -/
theorem Frontend.non_ok_appends_fixed_fallback (T : List ChatMessage) (input : String)
    (status : Nat) (body : Body)
    (hinput : jsTrim input ≠ "") (hstatus : ¬ (200 ≤ status ∧ status ≤ 299)) :
    ∃ after : ChatState,
      Frontend.completeSend (.resolved ⟨status, body⟩) ⟨T, input, false⟩ = .ok after ∧
      after.messages
        = T ++ [ChatMessage.mk "user" (.str input),
            ChatMessage.mk "bot"
              (.str "Sorry, I encountered an error connecting to the AI. Please try again.")] := by
  obtain ⟨e, he⟩ := Frontend.proxied_reply_non_ok status body hstatus
  unfold Frontend.completeSend
  rw [Frontend.sendProxied_idle ⟨T, input, false⟩ hinput rfl]
  refine ⟨⟨T ++ [ChatMessage.mk "user" (.str input),
    ChatMessage.mk "bot" (.str Frontend.errorText)], "", false⟩, ?_, ?_⟩
  · simp [Frontend.handleSendMessage_settled, he]
  · simp [Frontend.errorText]

theorem Frontend.non_ok_appends_fixed_fallback_witness :
    jsTrim "Is tea healthy?" ≠ "" ∧ ¬ (200 ≤ 502 ∧ 502 ≤ 299) ∧
    ∃ after : ChatState,
      Frontend.completeSend
          (.resolved ⟨502, .invalid ⟨"Unexpected token < in JSON at position 0"⟩⟩)
          ⟨[greeting], "Is tea healthy?", false⟩ = .ok after ∧
      after.messages
        = [greeting] ++ [ChatMessage.mk "user" (.str "Is tea healthy?"),
            ChatMessage.mk "bot"
              (.str "Sorry, I encountered an error connecting to the AI. Please try again.")] :=
  ⟨by decide, by decide,
    Frontend.non_ok_appends_fixed_fallback [greeting] "Is tea healthy?" 502
      (.invalid ⟨"Unexpected token < in JSON at position 0"⟩) (by decide) (by decide)⟩

/-- In `health-app/src/App.jsx` a response with a non-2xx status always ends in `catch`. -/
theorem HealthApp.direct_reply_non_ok (status : Nat) (body : Body)
    (hstatus : ¬ (200 ≤ status ∧ status ≤ 299)) :
    ∃ e : JsError, HealthApp.reply (.resolved ⟨status, body⟩) = .error e := by
  have hok := Response.ok_eq_false status body hstatus
  cases body with
  | invalid e =>
    exact ⟨e, by simp [HealthApp.reply, FetchResult.await, hok, Response.json, bind, Except.bind]⟩
  | json errorData =>
    cases h1 : getProp errorData "error" with
    | error e =>
      exact ⟨e, by
        simp [HealthApp.reply, FetchResult.await, hok, Response.json, h1, bind, Except.bind]⟩
    | ok error =>
      cases h2 : optProp error "message" with
      | error e =>
        exact ⟨e, by
          simp [HealthApp.reply, FetchResult.await, hok, Response.json, h1, h2, bind,
            Except.bind]⟩
      | ok message =>
        exact ⟨⟨(if message.truthy then message
            else JsVal.str ("API Error: " ++ toString status)).toStr⟩, by
          simp [HealthApp.reply, FetchResult.await, hok, Response.json, h1, h2, bind,
            Except.bind, throw, throwThe, MonadExceptOf.throw]⟩

/-- C6 (the code at the failing input): two failing runs of `handleSendMessage` of
`health-app/src/App.jsx` from the same transcript and input, one with a rejected `fetch` and one
with a 400 response, end with different transcripts, each showing the raw text of its error after
"Sorry, an error occurred: ". -/
theorem HealthApp.error_text_depends_on_error :
    (HealthApp.completeSend [] (.rejected ⟨"Failed to fetch"⟩)
        ⟨[greeting], "Is tea healthy?", false⟩).messages
      = [greeting, ⟨"user", .str "Is tea healthy?"⟩,
          ⟨"bot", .str "Sorry, an error occurred: Failed to fetch"⟩] ∧
    (HealthApp.completeSend []
        (.resolved ⟨400, .json (.obj [("error", .obj [("code", .num 400),
          ("message", .str "API key not valid. Please pass a valid API key.")])])⟩)
        ⟨[greeting], "Is tea healthy?", false⟩).messages
      = [greeting, ⟨"user", .str "Is tea healthy?"⟩,
          ⟨"bot", .str "Sorry, an error occurred: API key not valid. Please pass a valid API key."⟩] ∧
    (HealthApp.completeSend [] (.rejected ⟨"Failed to fetch"⟩)
        ⟨[greeting], "Is tea healthy?", false⟩).messages
      ≠ (HealthApp.completeSend []
        (.resolved ⟨400, .json (.obj [("error", .obj [("code", .num 400),
          ("message", .str "API key not valid. Please pass a valid API key.")])])⟩)
        ⟨[greeting], "Is tea healthy?", false⟩).messages := by
  have h1 : (HealthApp.completeSend [] (.rejected ⟨"Failed to fetch"⟩)
        ⟨[greeting], "Is tea healthy?", false⟩).messages
      = [greeting, ⟨"user", .str "Is tea healthy?"⟩,
          ⟨"bot", .str "Sorry, an error occurred: Failed to fetch"⟩] := by
    unfold HealthApp.completeSend
    rw [HealthApp.sendHistory_idle [] ⟨[greeting], "Is tea healthy?", false⟩ (by decide) rfl]
    rfl
  have h2 : (HealthApp.completeSend []
        (.resolved ⟨400, .json (.obj [("error", .obj [("code", .num 400),
          ("message", .str "API key not valid. Please pass a valid API key.")])])⟩)
        ⟨[greeting], "Is tea healthy?", false⟩).messages
      = [greeting, ⟨"user", .str "Is tea healthy?"⟩,
          ⟨"bot", .str "Sorry, an error occurred: API key not valid. Please pass a valid API key."⟩] := by
    unfold HealthApp.completeSend
    rw [HealthApp.sendHistory_idle [] ⟨[greeting], "Is tea healthy?", false⟩ (by decide) rfl]
    rfl
  refine ⟨h1, h2, ?_⟩
  rw [h1, h2]
  intro h
  have := congrArg (fun l : List ChatMessage => l.map (fun m => m.text.toStr)) h
  revert this
  decide

/-- What `health-app/src/App.jsx` does on a failure: a rejected `fetch`, a body that does not
parse and a non-2xx status all reach `catch`, and a run that reaches `catch` with error `e` ends
with the transcript followed by the user message and exactly one `bot` message whose text is
"Sorry, an error occurred: " followed by `e.message`. -/
theorem HealthApp.failure_appends_error_message (biodata : JsObj) (T : List ChatMessage)
    (input : String) (hinput : jsTrim input ≠ "") :
    (∀ e : JsError, HealthApp.reply (.rejected e) = .error e) ∧
    (∀ (status : Nat) (e : JsError), HealthApp.reply (.resolved ⟨status, .invalid e⟩) = .error e) ∧
    (∀ (status : Nat) (body : Body), ¬ (200 ≤ status ∧ status ≤ 299) →
      ∃ e : JsError, HealthApp.reply (.resolved ⟨status, body⟩) = .error e) ∧
    (∀ (r : FetchResult) (e : JsError), HealthApp.reply r = .error e →
      (HealthApp.completeSend biodata r ⟨T, input, false⟩).messages
        = T ++ [ChatMessage.mk "user" (.str input),
            ChatMessage.mk "bot" (.str ("Sorry, an error occurred: " ++ e.message))]) ∧
    (∀ (r1 r2 : FetchResult) (e1 e2 : JsError),
      HealthApp.reply r1 = .error e1 → HealthApp.reply r2 = .error e2 →
      e1.message = e2.message →
      (HealthApp.completeSend biodata r1 ⟨T, input, false⟩).messages
        = (HealthApp.completeSend biodata r2 ⟨T, input, false⟩).messages) := by
  have hcatch : ∀ (r : FetchResult) (e : JsError), HealthApp.reply r = .error e →
      (HealthApp.completeSend biodata r ⟨T, input, false⟩).messages
        = T ++ [ChatMessage.mk "user" (.str input),
            ChatMessage.mk "bot" (.str ("Sorry, an error occurred: " ++ e.message))] := by
    intro r e he
    unfold HealthApp.completeSend
    rw [HealthApp.sendHistory_idle biodata ⟨T, input, false⟩ hinput rfl]
    simp [HealthApp.handleSendMessage_settled, he]
  refine ⟨?_, ?_, HealthApp.direct_reply_non_ok, hcatch, ?_⟩
  · intro e
    simp [HealthApp.reply, FetchResult.await, bind, Except.bind]
  · intro status e
    by_cases hok : Response.ok ⟨status, .invalid e⟩ = true
    · simp [HealthApp.reply, FetchResult.await, hok, Response.json, bind, Except.bind, pure,
        Except.pure]
    · simp [HealthApp.reply, FetchResult.await, hok, Response.json, bind, Except.bind]
  · intro r1 r2 e1 e2 h1 h2 hmsg
    rw [hcatch r1 e1 h1, hcatch r2 e2 h2, hmsg]

/-! ## Records: lookup after assignment -/

theorem JsObj.get_nil (key : String) : JsObj.get [] key = none := rfl

theorem JsObj.get_cons (p : String × JsVal) (rest : JsObj) (key : String) :
    JsObj.get (p :: rest) key = if p.1 = key then some p.2 else JsObj.get rest key := by
  by_cases h : p.1 = key <;> simp [JsObj.get, List.find?_cons, h]

theorem JsObj.get_set (o : JsObj) (key : String) (value : JsVal) (k : String) :
    JsObj.get (JsObj.set o key value) k = if key = k then some value else JsObj.get o k := by
  induction o with
  | nil => simp [JsObj.set, JsObj.get_cons, JsObj.get_nil]
  | cons p rest ih =>
    by_cases hp : p.1 = key
    · by_cases hk : key = k
      · simp [JsObj.set, hp, JsObj.get_cons, hk]
      · have hpk : ¬ p.1 = k := by rw [hp]; exact hk
        simp [JsObj.set, hp, JsObj.get_cons, hk]
    · simp only [JsObj.set, beq_iff_eq, hp, if_false, JsObj.get_cons, ih]
      by_cases hk : key = k
      · have hpk : ¬ p.1 = k := by rw [← hk]; exact hp
        simp [hk, hpk]
      · simp [hk]

theorem JsObj.get_eq_none_of_not_mem (o : JsObj) (k : String) (h : k ∉ o.keys) :
    JsObj.get o k = none := by
  induction o with
  | nil => rfl
  | cons p rest ih =>
    have h1 : ¬ p.1 = k := fun e => h (by simp [JsObj.keys, e.symm])
    have h2 : k ∉ JsObj.keys rest := fun m => h (by
      simp only [JsObj.keys, List.map_cons, List.mem_cons]
      exact Or.inr m)
    simp [JsObj.get_cons, h1, ih h2]

/-- Lookup in a spread: the value of the source when it has the field, else that of the target. -/
theorem JsObj.get_assign (target source : JsObj) (hnodup : source.keys.Nodup) (k : String) :
    JsObj.get (JsObj.assign target source) k
      = match JsObj.get source k with
        | some v => some v
        | none => JsObj.get target k := by
  induction source generalizing target with
  | nil => simp [JsObj.assign, JsObj.get_nil]
  | cons p rest ih =>
    have hrest : (JsObj.keys rest).Nodup := by
      simp only [JsObj.keys, List.map_cons, List.nodup_cons] at hnodup
      exact hnodup.2
    have hnot : p.1 ∉ JsObj.keys rest := by
      simp only [JsObj.keys, List.map_cons, List.nodup_cons] at hnodup
      exact hnodup.1
    have hstep : JsObj.assign target (p :: rest) = JsObj.assign (JsObj.set target p.1 p.2) rest := by
      simp [JsObj.assign]
    rw [hstep, ih (JsObj.set target p.1 p.2) hrest, JsObj.get_cons, JsObj.get_set]
    by_cases hk : p.1 = k
    · have : JsObj.get rest k = none := JsObj.get_eq_none_of_not_mem rest k (hk ▸ hnot)
      simp [hk, this]
    · simp [hk]

theorem JsObj.keys_set_subset (o : JsObj) (key : String) (value : JsVal) (k : String)
    (h : k ∈ o.keys) : k ∈ (JsObj.set o key value).keys := by
  induction o with
  | nil => simp [JsObj.keys] at h
  | cons p rest ih =>
    simp only [JsObj.keys, List.map_cons, List.mem_cons] at h
    by_cases hp : p.1 = key
    · simp only [JsObj.set, beq_iff_eq, hp, if_true, JsObj.keys, List.map_cons, List.mem_cons]
      rcases h with h | h
      · exact Or.inl (h.trans hp)
      · exact Or.inr h
    · simp only [JsObj.set, beq_iff_eq, hp, if_false, JsObj.keys, List.map_cons, List.mem_cons]
      rcases h with h | h
      · exact Or.inl h
      · exact Or.inr (ih h)

/-- A spread removes no field of its target. -/
theorem JsObj.keys_assign_subset (target source : JsObj) (k : String) (h : k ∈ target.keys) :
    k ∈ (JsObj.assign target source).keys := by
  induction source generalizing target with
  | nil => simpa [JsObj.assign] using h
  | cons p rest ih =>
    have hstep : JsObj.assign target (p :: rest) = JsObj.assign (JsObj.set target p.1 p.2) rest := by
      simp [JsObj.assign]
    rw [hstep]
    exact ih _ (JsObj.keys_set_subset target p.1 p.2 k h)

/-! ## Profile save and load -/

theorem userId_truthy (uid : String) (hne : uid ≠ "") : (JsVal.str uid).truthy = true := by
  simpa [JsVal.truthy] using hne

/-- C7: `handleFormSubmit` with an established identity (`db` set, `userId` a non-empty string),
a form that is a record (distinct field names) and a write that succeeds saves with merge
semantics: the stored document afterwards has the value of the form for every field of the form,
and the previously stored value for every field that the form does not have; no stored field is
removed.  For instance, with `weight: 70` stored and the form `height: 180`, the document
afterwards holds `height: 180` and `weight: 70` and nothing else. -/
theorem Frontend.handleFormSubmit_merges (appId uid : String) (hne : uid ≠ "") :
    (∀ (store : Store) (s : AppState), s.db = true → s.userId = some uid →
      s.formData.keys.Nodup →
      ∃ after : JsObj,
        (Frontend.handleFormSubmit appId .fulfilled store s).2 (docPath appId uid) = some after ∧
        (∀ (k : String) (v : JsVal), s.formData.get k = some v → after.get k = some v) ∧
        (∀ k : String, k ∉ s.formData.keys →
          after.get k = ((store (docPath appId uid)).getD []).get k) ∧
        (∀ k ∈ ((store (docPath appId uid)).getD []).keys, k ∈ after.keys)) ∧
    (Frontend.handleFormSubmit appId .fulfilled
        (fun p => if p = docPath appId uid then some [("weight", .num 70)] else none)
        { AppState.initial with db := true, userId := some uid,
                                formData := [("height", .num 180)] }).2 (docPath appId uid)
      = some [("weight", .num 70), ("height", .num 180)] := by
  have ht := userId_truthy uid hne
  constructor
  · intro store s hdb huid hform
    refine ⟨JsObj.assign ((store (docPath appId uid)).getD []) s.formData, ?_, ?_, ?_, ?_⟩
    · simp [Frontend.handleFormSubmit, hdb, huid, ht, setDoc, userIdValue, JsVal.toStr]
    · intro k v hk
      rw [JsObj.get_assign _ _ hform, hk]
    · intro k hk
      rw [JsObj.get_assign _ _ hform, JsObj.get_eq_none_of_not_mem _ _ hk]
    · intro k hk
      exact JsObj.keys_assign_subset _ _ k hk
  · simp [Frontend.handleFormSubmit, ht, setDoc, userIdValue, JsVal.toStr, AppState.initial,
      JsObj.assign, JsObj.set]

theorem Frontend.handleFormSubmit_merges_witness :
    "user-1" ≠ "" ∧
    ({ AppState.initial with db := true, userId := some "user-1",
                             formData := [("height", .str "180"), ("weight", .str "72")] }
      : AppState).formData.keys.Nodup ∧
    ∃ after : JsObj,
      (Frontend.handleFormSubmit "app" .fulfilled
        (fun p => if p = docPath "app" "user-1"
          then some [("weight", .str "70"), ("dob", .str "1990-01-01")] else none)
        { AppState.initial with db := true, userId := some "user-1",
                                formData := [("height", .str "180"), ("weight", .str "72")] }).2
        (docPath "app" "user-1") = some after ∧
      (∀ (k : String) (v : JsVal),
        JsObj.get [("height", .str "180"), ("weight", .str "72")] k = some v →
        after.get k = some v) ∧
      (∀ k : String, k ∉ JsObj.keys [("height", .str "180"), ("weight", .str "72")] →
        after.get k = JsObj.get [("weight", .str "70"), ("dob", .str "1990-01-01")] k) ∧
      (∀ k ∈ JsObj.keys [("weight", .str "70"), ("dob", .str "1990-01-01")], k ∈ after.keys) :=
  ⟨by decide, by decide,
    (Frontend.handleFormSubmit_merges "app" "user-1" (by decide)).1
      (fun p => if p = docPath "app" "user-1"
        then some [("weight", .str "70"), ("dob", .str "1990-01-01")] else none)
      { AppState.initial with db := true, userId := some "user-1",
                              formData := [("height", .str "180"), ("weight", .str "72")] }
      rfl rfl (by decide)⟩

/-- C8: `fetchUserData` (in `f/frontend/src/App.js` and `tempCodeRunnerFile.js`) with a ready
identity, when the read succeeds and there is no stored profile document, leaves `formData` as it
was (so the defaults stay when loading into the initial form) and raises no error notification: the
first variant shows a notification of type `info`, the second shows none. -/
theorem fetchUserData_missing_document (appId uid : String) (store : Store) (s : AppState)
    (hready : s.isAuthReady = true) (hdb : s.db = true) (huid : s.userId = some uid)
    (hne : uid ≠ "") (hmissing : store (docPath appId uid) = none) :
    (Frontend.fetchUserData appId .fulfilled store s).formData = s.formData ∧
    (Frontend.fetchUserData appId .fulfilled store s).notification.type = "info" ∧
    (Frontend.fetchUserData appId .fulfilled store s).notification.type ≠ "error" ∧
    (s.formData = initialFormData →
      (Frontend.fetchUserData appId .fulfilled store s).formData = initialFormData) ∧
    TempCodeRunner.fetchUserData appId .fulfilled store s = s := by
  have ht := userId_truthy uid hne
  have h1 : Frontend.fetchUserData appId .fulfilled store s
      = showNotification "No existing profile found. Please fill out your details." "info" s := by
    simp [Frontend.fetchUserData, hready, hdb, huid, ht, userIdValue, JsVal.toStr, hmissing]
  have h2 : TempCodeRunner.fetchUserData appId .fulfilled store s = s := by
    simp [TempCodeRunner.fetchUserData, hready, hdb, huid, ht, userIdValue, JsVal.toStr, hmissing]
  rw [h1]
  refine ⟨rfl, rfl, by simp [showNotification], fun h => h, h2⟩

theorem fetchUserData_missing_document_witness :
    ({ AppState.initial with isAuthReady := true, db := true, userId := some "user-1" }
      : AppState).isAuthReady = true ∧
    "user-1" ≠ "" ∧
    (fun _ => none : Store) (docPath "app" "user-1") = none ∧
    (Frontend.fetchUserData "app" .fulfilled (fun _ => none)
      { AppState.initial with isAuthReady := true, db := true, userId := some "user-1" }).formData
      = initialFormData ∧
    (Frontend.fetchUserData "app" .fulfilled (fun _ => none)
      { AppState.initial with isAuthReady := true, db := true,
                              userId := some "user-1" }).notification.type ≠ "error" :=
  have h := fetchUserData_missing_document "app" "user-1" (fun _ => none)
    { AppState.initial with isAuthReady := true, db := true, userId := some "user-1" }
    rfl rfl rfl (by decide) rfl
  ⟨rfl, by decide, rfl, h.1, h.2.2.1⟩

/-! ## Logout -/

/-- C9: `handleLogout` of `f/frontend/src/App.js`, when `auth` is set and sign-out succeeds, sets
`userId` to `null` and sets `formData`, whatever it held, to the seventeen-field default record,
which is the initial form state: `gender` is `Male`, `smokingStatus` is `Never`, `stressLevel` is
`Low`, and the other fourteen fields are the empty string. -/
theorem Frontend.handleLogout_resets (s : AppState) (hauth : s.auth = true) :
    (Frontend.handleLogout .fulfilled s).userId = none ∧
    (Frontend.handleLogout .fulfilled s).formData = AppState.initial.formData ∧
    (Frontend.handleLogout .fulfilled s).formData.keys
      = ["fullName", "dob", "gender", "phone", "location", "height", "weight", "bloodGroup",
          "allergies", "chronicDiseases", "pastMedicalHistory", "smokingStatus",
          "alcoholConsumption", "dietaryHabits", "exercise", "sleepHours", "stressLevel"] ∧
    (Frontend.handleLogout .fulfilled s).formData.length = 17 ∧
    (Frontend.handleLogout .fulfilled s).formData.get "gender" = some (.str "Male") ∧
    (Frontend.handleLogout .fulfilled s).formData.get "smokingStatus" = some (.str "Never") ∧
    (Frontend.handleLogout .fulfilled s).formData.get "stressLevel" = some (.str "Low") ∧
    (∀ k ∈ ["fullName", "dob", "phone", "location", "height", "weight", "bloodGroup",
          "allergies", "chronicDiseases", "pastMedicalHistory", "alcoholConsumption",
          "dietaryHabits", "exercise", "sleepHours"],
      (Frontend.handleLogout .fulfilled s).formData.get k = some (.str "")) := by
  have h : Frontend.handleLogout .fulfilled s
      = showNotification "You have been logged out successfully." "success"
          { s with userId := none, formData := logoutFormData } := by
    simp [Frontend.handleLogout, hauth]
  rw [h]
  refine ⟨rfl, rfl, rfl, rfl, rfl, rfl, rfl, ?_⟩
  intro k hk
  simp only [List.mem_cons, List.mem_singleton, List.not_mem_nil, or_false] at hk
  rcases hk with h | h | h | h | h | h | h | h | h | h | h | h | h | h <;> subst h <;> rfl

theorem Frontend.handleLogout_resets_witness :
    ({ AppState.initial with auth := true, userId := some "user-1",
                             formData := [("fullName", .str "Asha"), ("gender", .str "Female")] }
      : AppState).auth = true ∧
    (Frontend.handleLogout .fulfilled
      { AppState.initial with auth := true, userId := some "user-1",
                              formData := [("fullName", .str "Asha"), ("gender", .str "Female")] }
      ).userId = none ∧
    (Frontend.handleLogout .fulfilled
      { AppState.initial with auth := true, userId := some "user-1",
                              formData := [("fullName", .str "Asha"), ("gender", .str "Female")] }
      ).formData = AppState.initial.formData :=
  have h := Frontend.handleLogout_resets
    { AppState.initial with auth := true, userId := some "user-1",
                            formData := [("fullName", .str "Asha"), ("gender", .str "Female")] } rfl
  ⟨rfl, h.1, h.2.1⟩

/-! ## Report upload -/

theorem startsWith_image_iff (type : String) :
    "image/".toList.isPrefixOf type.toList = true ↔ ∃ rest : String, type = "image/" ++ rest := by
  rw [List.isPrefixOf_iff_prefix]
  constructor
  · rintro ⟨l, hl⟩
    refine ⟨String.mk l, ?_⟩
    apply String.ext
    simpa using hl.symm
  · rintro ⟨rest, hrest⟩
    exact ⟨rest.toList, by rw [hrest]; simp⟩

/-- C10: `handleReportFileChange` (in `f/frontend/src/App.js` and `tempCodeRunnerFile.js`) accepts
the selection if and only if a file is present and its MIME type starts with `image/`.  On
acceptance `reportImage` is that file and `reportImagePreview` is set to the object URL of the
file; otherwise both become `null`, whatever was pending before, and an error notification is
shown. -/
theorem handleReportFileChange_accepts_images (createObjectURL : JsFile → String)
    (files : List JsFile) (s : AppState) :
    ((∃ (file : JsFile) (rest : String), files.head? = some file ∧ file.type = "image/" ++ rest) →
      (∃ file : JsFile, files.head? = some file ∧
        (Frontend.handleReportFileChange createObjectURL files s).reportImage = some file ∧
        (Frontend.handleReportFileChange createObjectURL files s).reportImagePreview
          = some (createObjectURL file) ∧
        (TempCodeRunner.handleReportFileChange createObjectURL files s).reportImage = some file ∧
        (TempCodeRunner.handleReportFileChange createObjectURL files s).reportImagePreview
          = some (createObjectURL file))) ∧
    ((¬ ∃ (file : JsFile) (rest : String), files.head? = some file ∧ file.type = "image/" ++ rest) →
      ((Frontend.handleReportFileChange createObjectURL files s).reportImage = none ∧
        (Frontend.handleReportFileChange createObjectURL files s).reportImagePreview = none ∧
        (Frontend.handleReportFileChange createObjectURL files s).notification
          = ⟨true, "Please upload a valid image file (e.g., PNG, JPG).", "error"⟩ ∧
        (TempCodeRunner.handleReportFileChange createObjectURL files s).reportImage = none ∧
        (TempCodeRunner.handleReportFileChange createObjectURL files s).reportImagePreview = none ∧
        (TempCodeRunner.handleReportFileChange createObjectURL files s).notification
          = ⟨true, "Please upload a valid image file.", "error"⟩)) := by
  constructor
  · rintro ⟨file, rest, hfile, htype⟩
    have hp : "image/".toList.isPrefixOf file.type.toList = true :=
      (startsWith_image_iff file.type).2 ⟨rest, htype⟩
    refine ⟨file, hfile, ?_, ?_, ?_, ?_⟩ <;>
      simp only [Frontend.handleReportFileChange, TempCodeRunner.handleReportFileChange, hfile, hp,
        if_true]
  · intro hno
    cases hfile : files.head? with
    | none =>
      simp [Frontend.handleReportFileChange, TempCodeRunner.handleReportFileChange, hfile,
        showNotification]
    | some file =>
      have hp : "image/".toList.isPrefixOf file.type.toList = false := by
        cases hq : "image/".toList.isPrefixOf file.type.toList with
        | false => rfl
        | true =>
          obtain ⟨rest, hrest⟩ := (startsWith_image_iff file.type).1 hq
          exact absurd ⟨file, rest, hfile, hrest⟩ hno
      simp only [Frontend.handleReportFileChange, TempCodeRunner.handleReportFileChange, hfile, hp,
        showNotification, Bool.false_eq_true, if_false, and_self]

theorem handleReportFileChange_accepts_images_witness :
    (∃ (file : JsFile) (rest : String),
      [JsFile.mk "report.png" "image/png" [137, 80, 78, 71]].head? = some file ∧
      file.type = "image/" ++ rest) ∧
    (∃ file : JsFile, [JsFile.mk "report.png" "image/png" [137, 80, 78, 71]].head? = some file ∧
      (Frontend.handleReportFileChange (fun f => "blob:" ++ f.name)
        [JsFile.mk "report.png" "image/png" [137, 80, 78, 71]] AppState.initial).reportImage
        = some file ∧
      (Frontend.handleReportFileChange (fun f => "blob:" ++ f.name)
        [JsFile.mk "report.png" "image/png" [137, 80, 78, 71]] AppState.initial).reportImagePreview
        = some ((fun f : JsFile => "blob:" ++ f.name) file) ∧
      (TempCodeRunner.handleReportFileChange (fun f => "blob:" ++ f.name)
        [JsFile.mk "report.png" "image/png" [137, 80, 78, 71]] AppState.initial).reportImage
        = some file ∧
      (TempCodeRunner.handleReportFileChange (fun f => "blob:" ++ f.name)
        [JsFile.mk "report.png" "image/png" [137, 80, 78, 71]] AppState.initial).reportImagePreview
        = some ((fun f : JsFile => "blob:" ++ f.name) file)) :=
  have hacc : ∃ (file : JsFile) (rest : String),
      [JsFile.mk "report.png" "image/png" [137, 80, 78, 71]].head? = some file ∧
      file.type = "image/" ++ rest :=
    ⟨JsFile.mk "report.png" "image/png" [137, 80, 78, 71], "png", rfl, by decide⟩
  ⟨hacc,
    (handleReportFileChange_accepts_images (fun f => "blob:" ++ f.name)
      [JsFile.mk "report.png" "image/png" [137, 80, 78, 71]] AppState.initial).1 hacc⟩

/-! ## Operations without a ready identity -/

/-- C11: `handleFormSubmit` invoked when no identity is available (`db` unset or `userId` null),
however the write would settle, performs no write (the store is as before), leaves `formData`
unchanged and shows the error notification "Cannot save. Not connected to services.". -/
theorem Frontend.handleFormSubmit_without_identity (appId : String) (write : Settled)
    (store : Store) (s : AppState) (h : s.db = false ∨ s.userId = none) :
    (Frontend.handleFormSubmit appId write store s).2 = store ∧
    (Frontend.handleFormSubmit appId write store s).1.formData = s.formData ∧
    (Frontend.handleFormSubmit appId write store s).1.notification
      = ⟨true, "Cannot save. Not connected to services.", "error"⟩ ∧
    (Frontend.handleFormSubmit appId write store s).1
      = showNotification "Cannot save. Not connected to services." "error" s := by
  have hg : (!s.db || !(userIdValue s.userId).truthy) = true := by
    rcases h with h | h
    · simp [h]
    · simp [h, userIdValue, JsVal.truthy]
  have hr : Frontend.handleFormSubmit appId write store s
      = (showNotification "Cannot save. Not connected to services." "error" s, store) := by
    simp only [Frontend.handleFormSubmit, hg, if_true]
  rw [hr]
  exact ⟨rfl, rfl, rfl, rfl⟩

theorem Frontend.handleFormSubmit_without_identity_witness :
    (AppState.initial.db = false ∨ AppState.initial.userId = none) ∧
    (Frontend.handleFormSubmit "app" .fulfilled
        (fun p => if p = docPath "app" "user-1" then some [("weight", .str "70")] else none)
        AppState.initial).2
      = (fun p => if p = docPath "app" "user-1" then some [("weight", .str "70")] else none) ∧
    (Frontend.handleFormSubmit "app" .fulfilled
        (fun p => if p = docPath "app" "user-1" then some [("weight", .str "70")] else none)
        AppState.initial).1.notification
      = ⟨true, "Cannot save. Not connected to services.", "error"⟩ :=
  have h := Frontend.handleFormSubmit_without_identity "app" .fulfilled
    (fun p => if p = docPath "app" "user-1" then some [("weight", .str "70")] else none)
    AppState.initial (Or.inl rfl)
  ⟨Or.inl rfl, h.1, h.2.2.1⟩

/-- C12 (as stated, refuted): `fetchUserData` invoked on the initial state, where the identity is
not ready, shows no notification at all: the notification stays hidden, its type is not `error`,
and no hide timer is scheduled. -/
theorem Frontend.fetchUserData_not_ready_shows_nothing :
    (Frontend.fetchUserData "app" .fulfilled (fun _ => none) AppState.initial).notification
      = ⟨false, "", ""⟩ ∧
    (Frontend.fetchUserData "app" .fulfilled (fun _ => none) AppState.initial).notification.type
      ≠ "error" ∧
    (Frontend.fetchUserData "app" .fulfilled (fun _ => none) AppState.initial).timers = [] := by
  refine ⟨rfl, ?_, rfl⟩
  show ("" : String) ≠ "error"
  decide

/-- C12 (amended): `fetchUserData` invoked when the identity is not ready (`isAuthReady` false,
`db` unset or `userId` null) does not access the store and returns silently: whatever the store
holds and however a read would settle, the state, its notification included, is left as it was. -/
theorem Frontend.fetchUserData_not_ready_returns (appId : String) (read : Settled)
    (store : Store) (s : AppState)
    (h : s.isAuthReady = false ∨ s.db = false ∨ s.userId = none) :
    Frontend.fetchUserData appId read store s = s ∧
    (Frontend.fetchUserData appId read store s).notification = s.notification ∧
    (Frontend.fetchUserData appId read store s).formData = s.formData := by
  have hg : (!s.isAuthReady || !s.db || !(userIdValue s.userId).truthy) = true := by
    rcases h with h | h | h
    · simp [h]
    · simp [h]
    · simp [h, userIdValue, JsVal.truthy]
  have hr : Frontend.fetchUserData appId read store s = s := by
    simp only [Frontend.fetchUserData, hg, if_true]
  rw [hr]
  exact ⟨rfl, rfl, rfl⟩

theorem Frontend.fetchUserData_not_ready_returns_witness :
    (({ AppState.initial with isAuthReady := true, db := true } : AppState).isAuthReady = false ∨
      ({ AppState.initial with isAuthReady := true, db := true } : AppState).db = false ∨
      ({ AppState.initial with isAuthReady := true, db := true } : AppState).userId = none) ∧
    Frontend.fetchUserData "app" .fulfilled
        (fun p => if p = docPath "app" "user-1" then some [("weight", .str "70")] else none)
        { AppState.initial with isAuthReady := true, db := true }
      = { AppState.initial with isAuthReady := true, db := true } :=
  ⟨Or.inr (Or.inr rfl),
    (Frontend.fetchUserData_not_ready_returns "app" .fulfilled
      (fun p => if p = docPath "app" "user-1" then some [("weight", .str "70")] else none)
      { AppState.initial with isAuthReady := true, db := true } (Or.inr (Or.inr rfl))).1⟩

/-! ## Identity resolution -/

theorem initialToken_truthy (initialAuthToken : JsVal)
    (h : (initialToken initialAuthToken).truthy = true) :
    initialToken initialAuthToken = initialAuthToken ∧ tokenSupplied initialAuthToken = true := by
  cases initialAuthToken <;> first | exact ⟨rfl, h⟩ | exact absurd h (by decide)

theorem initialToken_falsy (initialAuthToken : JsVal)
    (h : (initialToken initialAuthToken).truthy = false) :
    tokenSupplied initialAuthToken = false := by
  cases initialAuthToken <;> exact h

/-- C13: the identity-resolution callback (in `f/frontend/src/App.js` and
`tempCodeRunnerFile.js`) follows the order existing user, one-time token, anonymous.  With an
existing user, `userId` becomes its uid and no sign-in is attempted; with no user and a non-empty
token, the only call is the custom-token sign-in with that token; with no user and no token
(the global undeclared, `null` or empty), the only call is the anonymous sign-in.  Every
invocation takes exactly one of the three branches, which are told apart by the presence of the
user and the truthiness of the token. -/
theorem onAuthStateChanged_priority (initialAuthToken : JsVal) (signIn : Settled)
    (s : AppState) :
    (∀ uid : String,
      (Frontend.onAuthStateChanged (some uid) initialAuthToken signIn s).1.userId = some uid ∧
      (Frontend.onAuthStateChanged (some uid) initialAuthToken signIn s).2 = [] ∧
      (TempCodeRunner.onAuthStateChanged (some uid) initialAuthToken signIn s).1.userId
        = some uid ∧
      (TempCodeRunner.onAuthStateChanged (some uid) initialAuthToken signIn s).2 = []) ∧
    (∀ token : String, token ≠ "" →
      (Frontend.onAuthStateChanged none (.str token) signIn s).2
        = [SignInCall.withCustomToken (.str token)] ∧
      (TempCodeRunner.onAuthStateChanged none (.str token) signIn s).2
        = [SignInCall.withCustomToken (.str token)]) ∧
    (∀ absent : JsVal, absent = .undefined ∨ absent = .null ∨ absent = .str "" →
      (Frontend.onAuthStateChanged none absent signIn s).2 = [SignInCall.anonymously] ∧
      (TempCodeRunner.onAuthStateChanged none absent signIn s).2 = [SignInCall.anonymously]) ∧
    (∀ user : Option String,
      (user.isSome = true ∧
        (Frontend.onAuthStateChanged user initialAuthToken signIn s).2 = [] ∧
        (TempCodeRunner.onAuthStateChanged user initialAuthToken signIn s).2 = []) ∨
      (user = none ∧ (initialToken initialAuthToken).truthy = true ∧
        (Frontend.onAuthStateChanged user initialAuthToken signIn s).2
          = [SignInCall.withCustomToken initialAuthToken] ∧
        (TempCodeRunner.onAuthStateChanged user initialAuthToken signIn s).2
          = [SignInCall.withCustomToken initialAuthToken]) ∨
      (user = none ∧ (initialToken initialAuthToken).truthy = false ∧
        (Frontend.onAuthStateChanged user initialAuthToken signIn s).2
          = [SignInCall.anonymously] ∧
        (TempCodeRunner.onAuthStateChanged user initialAuthToken signIn s).2
          = [SignInCall.anonymously])) := by
  refine ⟨?_, ?_, ?_, ?_⟩
  · intro uid
    exact ⟨rfl, rfl, rfl, rfl⟩
  · intro token htoken
    have ht : (JsVal.str token).truthy = true := by simpa [JsVal.truthy] using htoken
    constructor
    · cases signIn <;> simp [Frontend.onAuthStateChanged, initialToken, ht]
    · cases signIn <;> simp [TempCodeRunner.onAuthStateChanged, tokenSupplied, ht]
  · intro absent habsent
    rcases habsent with h | h | h <;> subst h <;> constructor <;> cases signIn <;>
      simp [Frontend.onAuthStateChanged, TempCodeRunner.onAuthStateChanged, initialToken,
        tokenSupplied, JsVal.truthy]
  · intro user
    cases user with
    | some uid => exact Or.inl ⟨rfl, rfl, rfl⟩
    | none =>
      cases ht : (initialToken initialAuthToken).truthy with
      | true =>
        obtain ⟨h1, h2⟩ := initialToken_truthy initialAuthToken ht
        have ht1 : initialAuthToken.truthy = true := by
          rw [h1] at ht
          exact ht
        refine Or.inr (Or.inl ⟨rfl, rfl, ?_, ?_⟩)
        · cases signIn <;> simp [Frontend.onAuthStateChanged, h1, ht1]
        · cases signIn <;> simp only [TempCodeRunner.onAuthStateChanged, h2, if_true]
      | false =>
        have h2 := initialToken_falsy initialAuthToken ht
        refine Or.inr (Or.inr ⟨rfl, rfl, ?_, ?_⟩)
        · cases signIn <;> simp [Frontend.onAuthStateChanged, ht]
        · cases signIn <;>
            simp only [TempCodeRunner.onAuthStateChanged, h2, Bool.false_eq_true, if_false]

theorem onAuthStateChanged_priority_witness :
    "one-time-token" ≠ "" ∧
    (Frontend.onAuthStateChanged none (.str "one-time-token") .fulfilled AppState.initial).2
      = [SignInCall.withCustomToken (.str "one-time-token")] ∧
    (TempCodeRunner.onAuthStateChanged none (.str "one-time-token") .fulfilled
        AppState.initial).2
      = [SignInCall.withCustomToken (.str "one-time-token")] :=
  ⟨by decide,
    (onAuthStateChanged_priority .undefined .fulfilled AppState.initial).2.1
      "one-time-token" (by decide)⟩

/-- C14 (the code at the failing input): in `f/frontend/src/App.js`, with the services
initialised, no user and no token, when the anonymous sign-in is rejected the callback leaves the
notification hidden and schedules no timer; `isAuthReady` stays false.  The notification of the
effect is shown only when the initialisation itself throws. -/
theorem Frontend.signIn_rejection_not_notified :
    (Frontend.onAuthStateChanged none .undefined
        (.rejected ⟨"Firebase: Error (auth/network-request-failed)."⟩)
        (Frontend.authEffect .fulfilled AppState.initial)).2 = [SignInCall.anonymously] ∧
    (Frontend.onAuthStateChanged none .undefined
        (.rejected ⟨"Firebase: Error (auth/network-request-failed)."⟩)
        (Frontend.authEffect .fulfilled AppState.initial)).1.notification = ⟨false, "", ""⟩ ∧
    (Frontend.onAuthStateChanged none .undefined
        (.rejected ⟨"Firebase: Error (auth/network-request-failed)."⟩)
        (Frontend.authEffect .fulfilled AppState.initial)).1.timers = [] ∧
    (Frontend.onAuthStateChanged none .undefined
        (.rejected ⟨"Firebase: Error (auth/network-request-failed)."⟩)
        (Frontend.authEffect .fulfilled AppState.initial)).1.isAuthReady = false ∧
    (Frontend.authEffect (.rejected ⟨"Firebase: Error (app/invalid-api-key)."⟩)
        AppState.initial).notification
      = ⟨true, "Could not connect to health services.", "error"⟩ :=
  ⟨rfl, rfl, rfl, rfl, rfl⟩

/-! ## Loading flags -/

/-- In `f/frontend/src/App.js`, when the `try` block of `handleSendMessage` ends in `catch`, or
hands over a result that is not `null`, the render commits an idle state with one more `bot`
message; when the result is `null` (or `undefined`), the render throws. -/
theorem Frontend.chat_settled_idle (r : FetchResult) (s : ChatState) :
    (∀ e : JsError, Frontend.reply r = .error e →
      Frontend.handleSendMessage_settled r s
        = .ok { s with
            messages := s.messages ++ [⟨"bot", .str Frontend.errorText⟩], isLoading := false }) ∧
    (∀ result : JsVal, Frontend.reply r = .ok result → result.isNullish = false →
      ∃ text : JsVal,
        Frontend.handleSendMessage_settled r s
          = .ok { s with messages := s.messages ++ [⟨"bot", text⟩], isLoading := false }) ∧
    (∀ result : JsVal, Frontend.reply r = .ok result → result.isNullish = true →
      Frontend.handleSendMessage_settled r s
        = .error ⟨nullishReadMessage result "response"⟩) := by
  refine ⟨?_, ?_, ?_⟩
  · intro e he
    simp [Frontend.handleSendMessage_settled, he]
  · intro result hr hn
    cases hg : getProp result "response" with
    | error e =>
      cases result <;> simp [JsVal.isNullish] at hn <;> simp [getProp] at hg
    | ok text =>
      exact ⟨text, by
        simp [Frontend.handleSendMessage_settled, hr, Frontend.appendReply, hg, bind,
          Except.bind, pure, Except.pure]⟩
  · intro result hr hn
    cases result <;> simp [JsVal.isNullish] at hn <;>
      simp [Frontend.handleSendMessage_settled, hr, Frontend.appendReply, getProp, bind,
        Except.bind]

/-- In `f/frontend/src/App.js`, however the request settles, `isSummaryLoading` is false once
`handleGenerateSummary` has completed and `isReportLoading` is false once `handleAnalyzeReport`
has completed (both read the field of the result inside their `try` block); the same holds when
the image encoding fails, in which case no request is issued. -/
theorem Frontend.summary_and_report_flags_cleared (r : FetchResult) :
    (∀ s : AppState, (Frontend.handleGenerateSummary_settled r s).isSummaryLoading = false) ∧
    (∀ s : AppState, (Frontend.handleAnalyzeReport_settled r s).isReportLoading = false) ∧
    (∀ (e : JsError) (s : AppState), s.reportImage.isSome = true →
      (Frontend.handleAnalyzeReport (.failed e) s).1.isReportLoading = false ∧
      (Frontend.handleAnalyzeReport (.failed e) s).2.isNone = true) := by
  refine ⟨?_, ?_, ?_⟩
  · intro s
    unfold Frontend.handleGenerateSummary_settled
    cases Frontend.summaryReply r <;> rfl
  · intro s
    unfold Frontend.handleAnalyzeReport_settled
    cases Frontend.analysisReply r <;> rfl
  · intro e s himage
    cases hfile : s.reportImage with
    | none => simp [hfile] at himage
    | some file => simp [Frontend.handleAnalyzeReport, hfile, fileToBase64]

/-- C15 (the code at the failing input): in `f/frontend/src/App.js`, when `/api/chat` answers 200
with the JSON body `null`, the `try` block of `handleSendMessage` ends without an error, and the
updater it queued throws at render when it reads `result.response`: no state is committed, so the
chat does not return to an idle state.  For the same response `handleGenerateSummary` and
`handleAnalyzeReport`, which read the field inside `try`, end with their flag cleared and their
fixed error text. -/
theorem Frontend.null_body_throws_at_render :
    Frontend.reply (.resolved ⟨200, .json .null⟩) = .ok .null ∧
    Frontend.completeSend (.resolved ⟨200, .json .null⟩)
        (setInput "Is tea healthy?" ChatState.initial)
      = .error ⟨"Cannot read properties of null (reading 'response')"⟩ ∧
    (Frontend.handleGenerateSummary_settled (.resolved ⟨200, .json .null⟩)
      (Frontend.handleGenerateSummary
        (handleInputChange "fullName" "Asha" AppState.initial)).1).isSummaryLoading = false ∧
    (Frontend.handleGenerateSummary_settled (.resolved ⟨200, .json .null⟩)
      (Frontend.handleGenerateSummary
        (handleInputChange "fullName" "Asha" AppState.initial)).1).healthSummary
      = .str "<p class=\"text-red-600\">An error occurred while generating the summary. Please check your connection and try again.</p>" ∧
    (Frontend.handleAnalyzeReport_settled (.resolved ⟨200, .json .null⟩)
      AppState.initial).isReportLoading = false := by
  have hreply : Frontend.reply (.resolved ⟨200, .json .null⟩) = .ok .null := by
    simp [Frontend.reply, FetchResult.await, Response.ok, Response.json, bind, Except.bind,
      pure, Except.pure]
  have hmsg : nullishReadMessage .null "response"
      = "Cannot read properties of null (reading 'response')" := by decide
  refine ⟨hreply, ?_, ?_, ?_, ?_⟩
  · unfold Frontend.completeSend
    rw [Frontend.sendProxied_idle (setInput "Is tea healthy?" ChatState.initial) (by decide) rfl]
    show Frontend.handleSendMessage_settled _ _ = _
    rw [(Frontend.chat_settled_idle _ _).2.2 .null hreply rfl, hmsg]
  · exact (Frontend.summary_and_report_flags_cleared _).1 _
  · have hs : Frontend.summaryReply (.resolved ⟨200, .json .null⟩)
        = .error ⟨nullishReadMessage .null "summaryHtml"⟩ := by
      simp [Frontend.summaryReply, FetchResult.await, Response.ok, Response.json, getProp, bind,
        Except.bind, pure, Except.pure]
    simp [Frontend.handleGenerateSummary_settled, hs]
  · exact (Frontend.summary_and_report_flags_cleared _).2.1 _

/-! ## Busy flags of the summary and report features -/

/-- C16 (as stated, refuted): `handleGenerateSummary` invoked while `isSummaryLoading` is true,
and `handleAnalyzeReport` invoked while `isReportLoading` is true, each issue a new request. -/
theorem Frontend.handlers_ignore_busy_flag :
    ({ AppState.initial with isSummaryLoading := true,
                             formData := [("fullName", .str "Asha")] } : AppState).isSummaryLoading
      = true ∧
    (Frontend.handleGenerateSummary
      { AppState.initial with isSummaryLoading := true,
                              formData := [("fullName", .str "Asha")] }).2.isSome = true ∧
    ({ AppState.initial with isReportLoading := true,
                             reportImage := some ⟨"report.png", "image/png", [137, 80]⟩ }
      : AppState).isReportLoading = true ∧
    (Frontend.handleAnalyzeReport (.loaded "data:image/png;base64,iVA=")
      { AppState.initial with isReportLoading := true,
                              reportImage := some ⟨"report.png", "image/png", [137, 80]⟩ }
      ).2.isSome = true :=
  ⟨rfl, by decide, rfl, by decide⟩

/-- C16 (amended): in `f/frontend/src/App.js` the handlers `handleGenerateSummary` and
`handleAnalyzeReport` do not read their busy flag (the request they issue is the same whatever
the flag); the flag is checked by the buttons that trigger them: a click while `isSummaryLoading`
(respectively `isReportLoading`) is true issues no request and changes nothing, and a click that
issues a request leaves the flag set, so the next click issues none until the flag is cleared. -/
theorem Frontend.busy_flag_disables_button :
    (∀ (s : AppState) (flag : Bool),
      (Frontend.handleGenerateSummary { s with isSummaryLoading := flag }).2
        = (Frontend.handleGenerateSummary s).2) ∧
    (∀ (read : ReadResult) (s : AppState) (flag : Bool),
      (Frontend.handleAnalyzeReport read { s with isReportLoading := flag }).2
        = (Frontend.handleAnalyzeReport read s).2) ∧
    (∀ s : AppState, s.isSummaryLoading = true → Frontend.clickGenerateSummary s = (s, none)) ∧
    (∀ (read : ReadResult) (s : AppState), s.isReportLoading = true →
      Frontend.clickAnalyzeReport read s = (s, none)) ∧
    (∀ s : AppState, (Frontend.clickGenerateSummary s).2.isSome = true →
      (Frontend.clickGenerateSummary s).1.isSummaryLoading = true ∧
      Frontend.clickGenerateSummary (Frontend.clickGenerateSummary s).1
        = ((Frontend.clickGenerateSummary s).1, none)) ∧
    (∀ (read next : ReadResult) (s : AppState),
      (Frontend.clickAnalyzeReport read s).2.isSome = true →
      (Frontend.clickAnalyzeReport read s).1.isReportLoading = true ∧
      Frontend.clickAnalyzeReport next (Frontend.clickAnalyzeReport read s).1
        = ((Frontend.clickAnalyzeReport read s).1, none)) := by
  have hsum : ∀ s : AppState, s.isSummaryLoading = true →
      Frontend.clickGenerateSummary s = (s, none) := by
    intro s h
    simp [Frontend.clickGenerateSummary, h]
  have hrep : ∀ (read : ReadResult) (s : AppState), s.isReportLoading = true →
      Frontend.clickAnalyzeReport read s = (s, none) := by
    intro read s h
    simp [Frontend.clickAnalyzeReport, h]
  refine ⟨?_, ?_, hsum, hrep, ?_, ?_⟩
  · intro s flag
    simp only [Frontend.handleGenerateSummary]
    split <;> rfl
  · intro read s flag
    simp only [Frontend.handleAnalyzeReport]
    cases s.reportImage with
    | none => rfl
    | some file => cases fileToBase64 read <;> rfl
  · intro s hreq
    have hflag : (Frontend.clickGenerateSummary s).1.isSummaryLoading = true := by
      unfold Frontend.clickGenerateSummary at hreq ⊢
      cases hl : s.isSummaryLoading with
      | true => simp [hl] at hreq
      | false =>
        simp only [hl, Bool.false_eq_true, if_false] at hreq ⊢
        unfold Frontend.handleGenerateSummary at hreq ⊢
        split at hreq
        · simp at hreq
        · rename_i hc
          simp [hc]
    exact ⟨hflag, hsum _ hflag⟩
  · intro read next s hreq
    have hflag : (Frontend.clickAnalyzeReport read s).1.isReportLoading = true := by
      unfold Frontend.clickAnalyzeReport at hreq ⊢
      cases hl : (s.reportImage.isNone || s.isReportLoading) with
      | true => simp [hl] at hreq
      | false =>
        simp only [hl, Bool.false_eq_true, if_false] at hreq ⊢
        unfold Frontend.handleAnalyzeReport at hreq ⊢
        cases hfile : s.reportImage with
        | none => simp [hfile] at hreq
        | some file =>
          cases henc : fileToBase64 read with
          | error e => simp [hfile, henc] at hreq
          | ok data => simp [hfile, henc]
    exact ⟨hflag, hrep next _ hflag⟩

theorem Frontend.busy_flag_disables_button_witness :
    ({ AppState.initial with formData := [("fullName", .str "Asha")] }
      : AppState).isSummaryLoading = false ∧
    (Frontend.clickGenerateSummary
      { AppState.initial with formData := [("fullName", .str "Asha")] }).2.isSome = true ∧
    (Frontend.clickGenerateSummary
      { AppState.initial with formData := [("fullName", .str "Asha")] }).1.isSummaryLoading
      = true ∧
    Frontend.clickGenerateSummary
        (Frontend.clickGenerateSummary
          { AppState.initial with formData := [("fullName", .str "Asha")] }).1
      = ((Frontend.clickGenerateSummary
          { AppState.initial with formData := [("fullName", .str "Asha")] }).1, none) :=
  have h := Frontend.busy_flag_disables_button.2.2.2.2.1
    { AppState.initial with formData := [("fullName", .str "Asha")] } (by decide)
  ⟨rfl, by decide, h.1, h.2⟩

/-! ## Request of the report analysis -/

/-- In `f/frontend/src/App.js` and `health-app/src/App.jsx` the request of `handleAnalyzeReport`
carries the encoded data and the declared type of the pending file. -/
theorem proxied_report_request (read : ReadResult) (data : JsVal) (file : JsFile)
    (s : AppState) (himage : s.reportImage = some file) (hread : fileToBase64 read = .ok data) :
    (Frontend.handleAnalyzeReport read s).2
      = some ⟨"http://localhost:3001/api/analyzeReport", "POST", data, file.type⟩ ∧
    (HealthApp.handleAnalyzeReport read s).2
      = some ⟨"/api/analyzeReportImage", "POST", data, file.type⟩ := by
  simp [Frontend.handleAnalyzeReport, HealthApp.handleAnalyzeReport, himage, hread]

/-- C17 (the code at the failing input): for a pending JPEG file whose data URL is
`data:image/jpeg;base64,/9j/4A==`, `handleAnalyzeReport` of `tempCodeRunnerFile.js` sends the
encoded data `/9j/4A==` with the MIME type `image/png`, which is not the declared type
`image/jpeg` of the file; the other two variants send `image/jpeg`. -/
theorem TempCodeRunner.report_mime_type_is_png :
    (TempCodeRunner.handleAnalyzeReport (.loaded "data:image/jpeg;base64,/9j/4A==")
        { AppState.initial with reportImage := some ⟨"scan.jpg", "image/jpeg", [255, 216]⟩ }).2
      = some ⟨TempCodeRunner.apiUrl, "POST",
          [⟨"user", [.text TempCodeRunner.reportPrompt,
            .inlineData "image/png" (.str "/9j/4A==")]⟩]⟩ ∧
    "image/png" ≠ (JsFile.mk "scan.jpg" "image/jpeg" [255, 216]).type ∧
    (Frontend.handleAnalyzeReport (.loaded "data:image/jpeg;base64,/9j/4A==")
        { AppState.initial with reportImage := some ⟨"scan.jpg", "image/jpeg", [255, 216]⟩ }).2
      = some ⟨"http://localhost:3001/api/analyzeReport", "POST", .str "/9j/4A==",
          "image/jpeg"⟩ ∧
    (HealthApp.handleAnalyzeReport (.loaded "data:image/jpeg;base64,/9j/4A==")
        { AppState.initial with reportImage := some ⟨"scan.jpg", "image/jpeg", [255, 216]⟩ }).2
      = some ⟨"/api/analyzeReportImage", "POST", .str "/9j/4A==", "image/jpeg"⟩ := by
  have hsplit : jsSplitComma "data:image/jpeg;base64,/9j/4A=="
      = ["data:image/jpeg;base64", "/9j/4A=="] := by decide
  have henc : fileToBase64 (.loaded "data:image/jpeg;base64,/9j/4A==") = .ok (.str "/9j/4A==") := by
    simp [fileToBase64, hsplit]
  refine ⟨?_, by decide, ?_, ?_⟩
  · simp [TempCodeRunner.handleAnalyzeReport, AppState.initial, henc]
  · simp [Frontend.handleAnalyzeReport, AppState.initial, henc]
  · simp [HealthApp.handleAnalyzeReport, AppState.initial, henc]

/-! ## The chat instruction text -/

theorem HealthApp.orNotProvided_empty (biodata : JsObj) (key : String)
    (h : biodata.get key = none ∨ biodata.get key = some (.str "")) :
    HealthApp.orNotProvided biodata key = "Not provided" := by
  rcases h with h | h <;> simp [HealthApp.orNotProvided, h, JsVal.truthy, JsVal.toStr]

theorem HealthApp.orNotProvided_value (biodata : JsObj) (key value : String)
    (hvalue : value ≠ "") (h : biodata.get key = some (.str value)) :
    HealthApp.orNotProvided biodata key = value := by
  simp [HealthApp.orNotProvided, h, JsVal.truthy, JsVal.toStr, hvalue]

/-- C18: the `systemPrompt` of `health-app/src/App.jsx` is a fixed template in the profile: there
are four texts, the same for every biodata, between which the prompt puts the values shown for
`chronicDiseases`, `allergies` and `dietaryHabits`; the value shown for a field is `Not provided`
when the field is missing or the empty string, and the field itself when it is a non-empty string;
the last fixed text contains the instruction "Do NOT provide a medical diagnosis" and the
disclaimer sentence word for word. -/
theorem HealthApp.systemPrompt_is_template :
    ∃ opening second third closing : String,
      (∀ biodata : JsObj,
        HealthApp.systemPrompt biodata
          = opening ++ HealthApp.orNotProvided biodata "chronicDiseases"
            ++ second ++ HealthApp.orNotProvided biodata "allergies"
            ++ third ++ HealthApp.orNotProvided biodata "dietaryHabits" ++ closing) ∧
      (∀ (biodata : JsObj) (key : String),
        (biodata.get key = none ∨ biodata.get key = some (.str "")) →
        HealthApp.orNotProvided biodata key = "Not provided") ∧
      (∀ (biodata : JsObj) (key value : String), value ≠ "" →
        biodata.get key = some (.str value) →
        HealthApp.orNotProvided biodata key = value) ∧
      (∃ before after : String,
        closing = before ++ "Do NOT provide a medical diagnosis" ++ after) ∧
      (∃ before after : String,
        closing = before
          ++ "**Disclaimer: This is not medical advice. Please consult a healthcare professional for personal medical advice.**"
          ++ after) := by
  refine ⟨"You are a friendly and helpful AI health assistant called \"Health Yaar AI\". A user is asking a question.\n"
      ++ "        Here is some of their health data for context (use it to provide more relevant, general advice but do not diagnose):\n"
      ++ "        - Chronic Conditions: ",
    "\n" ++ "        - Allergies: ",
    "\n" ++ "        - Dietary Habits: ",
    "\n" ++ "\n" ++ "        Please provide a helpful, safe, and general response.\n"
      ++ "        **IMPORTANT**: Do NOT provide a medical diagnosis or prescribe medication. Always include this disclaimer in bold at the end of your response: \"**Disclaimer: This is not medical advice. Please consult a healthcare professional for personal medical advice.**\"\n"
      ++ "        ",
    ?_, HealthApp.orNotProvided_empty, HealthApp.orNotProvided_value, ?_, ?_⟩
  · intro biodata
    simp only [HealthApp.systemPrompt, String.append_assoc]
  · exact ⟨"\n\n        Please provide a helpful, safe, and general response.\n        **IMPORTANT**: ",
      " or prescribe medication. Always include this disclaimer in bold at the end of your response: \"**Disclaimer: This is not medical advice. Please consult a healthcare professional for personal medical advice.**\"\n        ",
      by set_option maxRecDepth 100000 in decide⟩
  · exact ⟨"\n\n        Please provide a helpful, safe, and general response.\n        **IMPORTANT**: Do NOT provide a medical diagnosis or prescribe medication. Always include this disclaimer in bold at the end of your response: \"",
      "\"\n        ", by set_option maxRecDepth 100000 in decide⟩

theorem HealthApp.systemPrompt_is_template_witness :
    "Asthma" ≠ "" ∧
    JsObj.get [("chronicDiseases", .str "Asthma"), ("allergies", .str "")] "chronicDiseases"
      = some (.str "Asthma") ∧
    HealthApp.orNotProvided [("chronicDiseases", .str "Asthma"), ("allergies", .str "")]
      "chronicDiseases" = "Asthma" ∧
    HealthApp.orNotProvided [("chronicDiseases", .str "Asthma"), ("allergies", .str "")]
      "allergies" = "Not provided" ∧
    HealthApp.orNotProvided [("chronicDiseases", .str "Asthma"), ("allergies", .str "")]
      "dietaryHabits" = "Not provided" :=
  HealthApp.systemPrompt_is_template.elim fun _ h => h.elim fun _ h => h.elim fun _ h =>
    h.elim fun _ h =>
      ⟨by decide, rfl,
        h.2.2.1 [("chronicDiseases", .str "Asthma"), ("allergies", .str "")] "chronicDiseases"
          "Asthma" (by decide) rfl,
        h.2.1 [("chronicDiseases", .str "Asthma"), ("allergies", .str "")] "allergies"
          (Or.inr rfl),
        h.2.1 [("chronicDiseases", .str "Asthma"), ("allergies", .str "")] "dietaryHabits"
          (Or.inl rfl)⟩

/-! ## History and reply of the proxied chat -/

/-- C19 (the code at the failing input): in `f/frontend/src/App.js`, the first send from the
initial transcript issues a request whose `chatHistory` is the whole prior transcript, that is the
seed greeting itself, as a `model` turn. -/
theorem Frontend.chatHistory_starts_with_greeting :
    (Frontend.handleSendMessage (setInput "Is tea healthy?" ChatState.initial)).2
      = some ⟨"http://localhost:3001/api/chat", "POST",
          ⟨"Is tea healthy?", [⟨"model", [⟨greeting.text⟩]⟩]⟩⟩ := by
  rw [Frontend.sendProxied_idle (setInput "Is tea healthy?" ChatState.initial) (by decide) rfl]
  rfl

/-- In `f/frontend/src/App.js` the `chatHistory` of every request is the whole transcript the
handler read, greeting included. -/
theorem Frontend.chatHistory_is_whole_transcript (s : ChatState)
    (hinput : jsTrim s.input ≠ "") (hidle : s.isLoading = false) :
    (Frontend.handleSendMessage s).2
      = some ⟨"http://localhost:3001/api/chat", "POST",
          ⟨s.input, s.messages.map toApiTurn⟩⟩ := by
  rw [Frontend.sendProxied_idle s hinput hidle]

/-- C20 (the code at the failing input): in `f/frontend/src/App.js`, when `/api/chat` answers 200
with the JSON object `{}`, the handler completes and the bot message appended to the transcript
has the text `undefined`, not the fallback string. -/
theorem Frontend.missing_response_field_appends_undefined :
    Frontend.completeSend (.resolved ⟨200, .json (.obj [])⟩)
        (setInput "Is tea healthy?" ChatState.initial)
      = .ok ⟨[greeting, ⟨"user", .str "Is tea healthy?"⟩, ⟨"bot", .undefined⟩], "", false⟩ ∧
    ([greeting, ⟨"user", .str "Is tea healthy?"⟩, ⟨"bot", .undefined⟩] : List ChatMessage)
      ≠ [greeting, ⟨"user", .str "Is tea healthy?"⟩,
          ⟨"bot", .str "Sorry, I encountered an error connecting to the AI. Please try again."⟩] := by
  constructor
  · unfold Frontend.completeSend
    rw [Frontend.sendProxied_idle (setInput "Is tea healthy?" ChatState.initial) (by decide) rfl]
    rfl
  · intro hc
    have := congrArg (fun l : List ChatMessage => l.map (fun m => m.text.toStr)) hc
    revert this
    decide

/-! ## Records: field names after assignment -/

theorem JsObj.keys_set_of_mem (o : JsObj) (key : String) (value : JsVal) (h : key ∈ o.keys) :
    (JsObj.set o key value).keys = o.keys := by
  induction o with
  | nil => simp [JsObj.keys] at h
  | cons p rest ih =>
    by_cases hp : p.1 = key
    · simp [JsObj.set, hp, JsObj.keys]
    · have hrest : key ∈ JsObj.keys rest := by
        simp only [JsObj.keys, List.map_cons, List.mem_cons] at h
        rcases h with h | h
        · exact absurd h.symm hp
        · exact h
      have := ih hrest
      simp only [JsObj.keys] at this
      simp [JsObj.set, hp, JsObj.keys, this]

theorem JsObj.keys_set_of_not_mem (o : JsObj) (key : String) (value : JsVal)
    (h : key ∉ o.keys) : (JsObj.set o key value).keys = o.keys ++ [key] := by
  induction o with
  | nil => simp [JsObj.set, JsObj.keys]
  | cons p rest ih =>
    have hp : ¬ p.1 = key := fun e => h (by simp [JsObj.keys, e.symm])
    have hrest : key ∉ JsObj.keys rest := fun m => h (by
      simp only [JsObj.keys, List.map_cons, List.mem_cons]
      exact Or.inr m)
    have := ih hrest
    simp only [JsObj.keys] at this
    simp [JsObj.set, hp, JsObj.keys, this]

theorem JsObj.assign_cons (target : JsObj) (p : String × JsVal) (rest : JsObj) :
    JsObj.assign target (p :: rest) = JsObj.assign (JsObj.set target p.1 p.2) rest := by
  simp [JsObj.assign]

/-- A spread whose source has only fields of the target keeps the field names of the target. -/
theorem JsObj.keys_assign_of_subset (target source : JsObj)
    (h : ∀ k ∈ source.keys, k ∈ target.keys) :
    (JsObj.assign target source).keys = target.keys := by
  induction source generalizing target with
  | nil => simp [JsObj.assign]
  | cons p rest ih =>
    have hp : p.1 ∈ target.keys := h p.1 (by simp [JsObj.keys])
    have hset := JsObj.keys_set_of_mem target p.1 p.2 hp
    rw [JsObj.assign_cons, ih (JsObj.set target p.1 p.2), hset]
    intro k hk
    rw [hset]
    exact h k (by
      simp only [JsObj.keys, List.map_cons, List.mem_cons]
      exact Or.inr hk)

/-- A spread onto a target that shares no field with the source appends the fields of the
source. -/
theorem JsObj.keys_assign_of_disjoint (target source : JsObj)
    (h : (target.keys ++ source.keys).Nodup) :
    (JsObj.assign target source).keys = target.keys ++ source.keys := by
  induction source generalizing target with
  | nil => simp [JsObj.assign, JsObj.keys]
  | cons p rest ih =>
    have hkeys : JsObj.keys (p :: rest) = p.1 :: JsObj.keys rest := by simp [JsObj.keys]
    rw [hkeys] at h ⊢
    have hp : p.1 ∉ target.keys := by
      intro hm
      have := List.nodup_append.1 h
      exact this.2.2 hm (List.mem_cons_self _ _)
    have hset := JsObj.keys_set_of_not_mem target p.1 p.2 hp
    have h2 : ((JsObj.set target p.1 p.2).keys ++ JsObj.keys rest).Nodup := by
      rw [hset, List.append_assoc]
      simpa using h
    rw [JsObj.assign_cons, ih (JsObj.set target p.1 p.2) h2, hset, List.append_assoc]
    simp

theorem JsObj.nodup_keys_set (o : JsObj) (key : String) (value : JsVal) (h : o.keys.Nodup) :
    (JsObj.set o key value).keys.Nodup := by
  by_cases hk : key ∈ o.keys
  · rw [JsObj.keys_set_of_mem o key value hk]
    exact h
  · rw [JsObj.keys_set_of_not_mem o key value hk]
    exact List.nodup_append.2 ⟨h, List.nodup_singleton _, by
      intro a ha hb
      rw [List.mem_singleton] at hb
      exact hk (hb ▸ ha)⟩

/-- A spread onto a record is a record. -/
theorem JsObj.nodup_keys_assign (target source : JsObj) (h : target.keys.Nodup) :
    (JsObj.assign target source).keys.Nodup := by
  induction source generalizing target with
  | nil => simpa [JsObj.assign] using h
  | cons p rest ih =>
    rw [JsObj.assign_cons]
    exact ih _ (JsObj.nodup_keys_set target p.1 p.2 h)

/-! ## The field set of the profile -/

theorem formFieldNames_nodup : formFieldNames.Nodup := by decide

/-- One profile event keeps the field names of the form and of every stored document. -/
theorem Frontend.profileStep_keeps_fields (appId : String) (w : AppState × Store)
    (e : ProfileEvent)
    (hname : ∀ name value, e = ProfileEvent.inputChange name value → name ∈ formFieldNames)
    (hform : w.1.formData.keys = formFieldNames)
    (hstore : ∀ path doc, w.2 path = some doc → doc.keys = formFieldNames) :
    (Frontend.profileStep appId w e).1.formData.keys = formFieldNames ∧
    (∀ path doc, (Frontend.profileStep appId w e).2 path = some doc →
      doc.keys = formFieldNames) := by
  cases e with
  | inputChange name value =>
    refine ⟨?_, hstore⟩
    have hmem : name ∈ w.1.formData.keys := hform ▸ hname name value rfl
    simp only [Frontend.profileStep, handleInputChange]
    rw [JsObj.keys_set_of_mem _ _ _ hmem, hform]
  | load read =>
    refine ⟨?_, hstore⟩
    simp only [Frontend.profileStep, Frontend.fetchUserData]
    split
    · exact hform
    · cases read with
      | rejected e => exact hform
      | fulfilled =>
        cases hdoc : w.2 (docPath appId (userIdValue w.1.userId).toStr) with
        | none => exact hform
        | some data =>
          have hdata := hstore _ _ hdoc
          simp only [showNotification]
          rw [JsObj.keys_assign_of_subset _ _ (by rw [hdata, hform]; exact fun k hk => hk), hform]
  | save write =>
    simp only [Frontend.profileStep, Frontend.handleFormSubmit]
    split
    · exact ⟨hform, hstore⟩
    · cases write with
      | rejected e => exact ⟨hform, hstore⟩
      | fulfilled =>
        refine ⟨hform, ?_⟩
        intro path doc hdoc
        simp only [setDoc, if_true] at hdoc
        split at hdoc
        · have hdoc1 := Option.some.inj hdoc
          rw [← hdoc1]
          cases hold : w.2 (docPath appId (userIdValue w.1.userId).toStr) with
          | none =>
            have hnil : JsObj.keys ([] : JsObj) = [] := rfl
            have := JsObj.keys_assign_of_disjoint [] w.1.formData
              (by rw [hnil, List.nil_append, hform]; exact formFieldNames_nodup)
            simp only [Option.getD_none]
            rw [this, hnil, List.nil_append, hform]
          | some stored =>
            have hstored := hstore _ _ hold
            simp only [Option.getD_some]
            rw [JsObj.keys_assign_of_subset _ _
              (by rw [hstored, hform]; exact fun k hk => hk), hstored]
        · exact hstore path doc hdoc
  | logout signOut =>
    refine ⟨?_, hstore⟩
    simp only [Frontend.profileStep, Frontend.handleLogout]
    split
    · exact hform
    · cases signOut with
      | rejected e => exact hform
      | fulfilled => rfl
  | authStateChanged user initialAuthToken signIn =>
    refine ⟨?_, hstore⟩
    simp only [Frontend.profileStep, Frontend.onAuthStateChanged]
    cases user with
    | some uid => exact hform
    | none => cases signIn <;> exact hform

theorem Frontend.profileRun_keeps_fields (appId : String) (events : List ProfileEvent)
    (w : AppState × Store)
    (hnames : ∀ name value, ProfileEvent.inputChange name value ∈ events →
      name ∈ formFieldNames)
    (hform : w.1.formData.keys = formFieldNames)
    (hstore : ∀ path doc, w.2 path = some doc → doc.keys = formFieldNames) :
    (Frontend.profileRun appId events w).1.formData.keys = formFieldNames ∧
    (∀ path doc, (Frontend.profileRun appId events w).2 path = some doc →
      doc.keys = formFieldNames) := by
  induction events generalizing w with
  | nil => exact ⟨hform, hstore⟩
  | cons e rest ih =>
    have hstep := Frontend.profileStep_keeps_fields appId w e
      (fun name value he => hnames name value (he ▸ List.mem_cons_self _ _)) hform hstore
    have hrun : Frontend.profileRun appId (e :: rest) w
        = Frontend.profileRun appId rest (Frontend.profileStep appId w e) := by
      simp [Frontend.profileRun]
    rw [hrun]
    exact ih _ (fun name value he => hnames name value (List.mem_cons_of_mem _ he))
      hstep.1 hstep.2

/-- C21: in `f/frontend/src/App.js`, starting from the default form and an empty store, after any
sequence of input changes on the seventeen named form fields, profile loads, profile saves,
logouts and auth reports, however their remote calls settle, the field names of `formData` are
exactly the seventeen known names, and so are the field names of every stored document: no
unknown field is introduced and none is lost. -/
theorem Frontend.profile_field_set_fixed (appId : String) (s0 : AppState)
    (events : List ProfileEvent) (hstart : s0.formData = initialFormData)
    (hnames : ∀ name value, ProfileEvent.inputChange name value ∈ events →
      name ∈ formFieldNames) :
    (Frontend.profileRun appId events (s0, fun _ => none)).1.formData.keys = formFieldNames ∧
    (∀ path doc, (Frontend.profileRun appId events (s0, fun _ => none)).2 path = some doc →
      doc.keys = formFieldNames) ∧
    formFieldNames.length = 17 ∧ formFieldNames.Nodup := by
  have h := Frontend.profileRun_keeps_fields appId events (s0, fun _ => none) hnames
    (by rw [hstart]; rfl) (by intro path doc hdoc; simp at hdoc)
  exact ⟨h.1, h.2, rfl, formFieldNames_nodup⟩

theorem Frontend.profile_field_set_fixed_witness :
    ({ AppState.initial with auth := true, db := true, isAuthReady := true,
                             userId := some "user-1" } : AppState).formData = initialFormData ∧
    (∀ name value, ProfileEvent.inputChange name value ∈
        [ProfileEvent.inputChange "height" "180", .save .fulfilled, .load .fulfilled,
          .logout .fulfilled] → name ∈ formFieldNames) ∧
    (Frontend.profileRun "app"
        [ProfileEvent.inputChange "height" "180", .save .fulfilled, .load .fulfilled,
          .logout .fulfilled]
        ({ AppState.initial with auth := true, db := true, isAuthReady := true,
                                 userId := some "user-1" }, fun _ => none)).1.formData.keys
      = formFieldNames ∧
    (∀ path doc,
      (Frontend.profileRun "app"
        [ProfileEvent.inputChange "height" "180", .save .fulfilled, .load .fulfilled,
          .logout .fulfilled]
        ({ AppState.initial with auth := true, db := true, isAuthReady := true,
                                 userId := some "user-1" }, fun _ => none)).2 path = some doc →
      doc.keys = formFieldNames) :=
  have hnames : ∀ name value, ProfileEvent.inputChange name value ∈
      [ProfileEvent.inputChange "height" "180", .save .fulfilled, .load .fulfilled,
        .logout .fulfilled] → name ∈ formFieldNames := by
    intro name value h
    simp at h
    rw [h.1]
    decide
  have h := Frontend.profile_field_set_fixed "app"
    { AppState.initial with auth := true, db := true, isAuthReady := true,
                            userId := some "user-1" }
    [ProfileEvent.inputChange "height" "180", .save .fulfilled, .load .fulfilled,
      .logout .fulfilled] rfl hnames
  ⟨rfl, hnames, h.1, h.2.1⟩

/-! ## Expiry of notifications -/

/-- A single notification is still shown just before 3000 ms have passed and is hidden once they
have. -/
theorem single_notification_expires (message type : String) (s : AppState) (ms : Nat)
    (hnone : s.timers = []) :
    (ms < 3000 → (advance ms (showNotification message type s)).notification
      = ⟨true, message, type⟩) ∧
    (3000 ≤ ms → (advance ms (showNotification message type s)).notification
      = ⟨false, "", ""⟩) := by
  constructor
  · intro h
    have hdue : decide (3000 ≤ ms) = false := by
      simp only [decide_eq_false_iff_not]
      omega
    simp [advance, showNotification, hnone, List.filter, hdue]
  · intro h
    have hdue : decide (3000 ≤ ms) = true := by
      simp only [decide_eq_true_eq]
      omega
    simp [advance, showNotification, hnone, List.filter, hdue, hideNotification]

/-- C22 (the code at the failing input): a first notification is shown at time 0 and a second one
2000 ms later; 1000 ms after the second one was shown, the timer of the first one runs and hides
it, while its own timer, due at 5000, is still pending. -/
theorem second_notification_hidden_early :
    (showNotification "Failed to save profile. Please try again." "error"
      (advance 2000 (showNotification "Profile loaded." "success" AppState.initial))).notification
      = ⟨true, "Failed to save profile. Please try again.", "error"⟩ ∧
    (showNotification "Failed to save profile. Please try again." "error"
      (advance 2000 (showNotification "Profile loaded." "success" AppState.initial))).now = 2000 ∧
    (advance 999 (showNotification "Failed to save profile. Please try again." "error"
      (advance 2000 (showNotification "Profile loaded." "success" AppState.initial)))).notification
      = ⟨true, "Failed to save profile. Please try again.", "error"⟩ ∧
    (advance 1000 (showNotification "Failed to save profile. Please try again." "error"
      (advance 2000 (showNotification "Profile loaded." "success" AppState.initial)))).notification
      = ⟨false, "", ""⟩ ∧
    (advance 1000 (showNotification "Failed to save profile. Please try again." "error"
      (advance 2000 (showNotification "Profile loaded." "success" AppState.initial)))).now
      = 3000 ∧
    (advance 1000 (showNotification "Failed to save profile. Please try again." "error"
      (advance 2000 (showNotification "Profile loaded." "success" AppState.initial)))).timers
      = [5000] := by
  refine ⟨?_, ?_, ?_, ?_, ?_, ?_⟩ <;> decide

/-! ## Validation of the summary request -/

/-- C23 (the code at the failing input): in `f/frontend/src/App.js`, with the full name filled in
and the height and weight left empty, `handleGenerateSummary` shows no notification, issues the
summary request and sets `isSummaryLoading`; the error is shown only when the three fields are all
empty. -/
theorem Frontend.summary_requested_without_height_and_weight :
    (JsObj.set initialFormData "fullName" (.str "Asha")).read "height" = .str "" ∧
    (JsObj.set initialFormData "fullName" (.str "Asha")).read "weight" = .str "" ∧
    (Frontend.handleGenerateSummary
      (handleInputChange "fullName" "Asha" AppState.initial)).2.isSome = true ∧
    (Frontend.handleGenerateSummary
      (handleInputChange "fullName" "Asha" AppState.initial)).1.isSummaryLoading = true ∧
    (Frontend.handleGenerateSummary
      (handleInputChange "fullName" "Asha" AppState.initial)).1.notification = ⟨false, "", ""⟩ ∧
    (Frontend.handleGenerateSummary AppState.initial).2.isNone = true ∧
    (Frontend.handleGenerateSummary AppState.initial).1.notification
      = ⟨true, "Please provide your full name, height, and weight to generate a summary.",
          "error"⟩ := by
  refine ⟨rfl, rfl, ?_, ?_, ?_, ?_, ?_⟩ <;> decide

/-! ## The encoded image -/

theorem splitOnComma_of_no_comma (l : List Char) (h : ',' ∉ l) : splitOnComma l = [l] := by
  induction l with
  | nil => rfl
  | cons c cs ih =>
    have hc : ¬ c = ',' := fun e => h (by simp [e])
    have hcs : ',' ∉ cs := fun m => h (List.mem_cons_of_mem _ m)
    simp [splitOnComma, hc, ih hcs]

theorem splitOnComma_append_comma (header rest : List Char) (h : ',' ∉ header) :
    splitOnComma (header ++ ',' :: rest) = header :: splitOnComma rest := by
  induction header with
  | nil => simp [splitOnComma]
  | cons c cs ih =>
    have hc : ¬ c = ',' := fun e => h (by simp [e])
    have hcs : ',' ∉ cs := fun m => h (List.mem_cons_of_mem _ m)
    simp [splitOnComma, hc, ih hcs]

/-- C24: `fileToBase64` resolves with the base64 part of the data URL: when the reader loads
`H ++ "," ++ B`, where neither the header `H` nor the payload `B` (possibly empty) contains a
comma, the resolved value is the string `B`. -/
theorem fileToBase64_payload (H B : String) (hH : ',' ∉ H.toList) (hB : ',' ∉ B.toList) :
    fileToBase64 (.loaded (H ++ "," ++ B)) = .ok (.str B) := by
  have hlist : (H ++ "," ++ B).toList = H.toList ++ ',' :: B.toList := by
    simp [String.toList]
  have hsplit : jsSplitComma (H ++ "," ++ B) = [H, B] := by
    unfold jsSplitComma
    rw [hlist, splitOnComma_append_comma _ _ hH, splitOnComma_of_no_comma _ hB]
    simp [String.toList]
  simp [fileToBase64, hsplit]

theorem fileToBase64_payload_witness :
    ',' ∉ "data:image/png;base64".toList ∧ ',' ∉ "iVBORw0KGgo=".toList ∧
    fileToBase64 (.loaded ("data:image/png;base64" ++ "," ++ "iVBORw0KGgo="))
      = .ok (.str "iVBORw0KGgo=") :=
  ⟨by decide, by decide,
    fileToBase64_payload "data:image/png;base64" "iVBORw0KGgo=" (by decide) (by decide)⟩

/-! ## Analysis without a pending image -/

/-- C25: in `f/frontend/src/App.js`, `handleAnalyzeReport` invoked with no pending image issues no
request, leaves `reportAnalysis` and `isReportLoading` unchanged and shows the error notification
"Please upload a medical report image first to analyze."; this is the case right after
`handleReportFileChange` has rejected a selection (no file, or a file whose type does not start
with `image/`), whatever image was pending before. -/
theorem Frontend.handleAnalyzeReport_without_image (read : ReadResult) :
    (∀ s : AppState, s.reportImage = none →
      (Frontend.handleAnalyzeReport read s).2 = none ∧
      (Frontend.handleAnalyzeReport read s).1.reportAnalysis = s.reportAnalysis ∧
      (Frontend.handleAnalyzeReport read s).1.isReportLoading = s.isReportLoading ∧
      (Frontend.handleAnalyzeReport read s).1.notification
        = ⟨true, "Please upload a medical report image first to analyze.", "error"⟩) ∧
    (∀ (createObjectURL : JsFile → String) (files : List JsFile) (s : AppState),
      (¬ ∃ (file : JsFile) (rest : String),
        files.head? = some file ∧ file.type = "image/" ++ rest) →
      (Frontend.handleAnalyzeReport read
        (Frontend.handleReportFileChange createObjectURL files s)).2 = none ∧
      (Frontend.handleAnalyzeReport read
        (Frontend.handleReportFileChange createObjectURL files s)).1.reportAnalysis
        = s.reportAnalysis ∧
      (Frontend.handleAnalyzeReport read
        (Frontend.handleReportFileChange createObjectURL files s)).1.isReportLoading
        = s.isReportLoading ∧
      (Frontend.handleAnalyzeReport read
        (Frontend.handleReportFileChange createObjectURL files s)).1.notification
        = ⟨true, "Please upload a medical report image first to analyze.", "error"⟩) := by
  have hfirst : ∀ s : AppState, s.reportImage = none →
      Frontend.handleAnalyzeReport read s
        = (showNotification "Please upload a medical report image first to analyze." "error" s,
            none) := by
    intro s h
    simp [Frontend.handleAnalyzeReport, h]
  constructor
  · intro s h
    rw [hfirst s h]
    exact ⟨rfl, rfl, rfl, rfl⟩
  · intro createObjectURL files s hno
    have hrej : (Frontend.handleReportFileChange createObjectURL files s).reportImage = none ∧
        (Frontend.handleReportFileChange createObjectURL files s).reportAnalysis
          = s.reportAnalysis ∧
        (Frontend.handleReportFileChange createObjectURL files s).isReportLoading
          = s.isReportLoading := by
      cases hfile : files.head? with
      | none =>
        simp only [Frontend.handleReportFileChange, hfile, showNotification, and_self]
      | some file =>
        have hp : "image/".toList.isPrefixOf file.type.toList = false := by
          cases hq : "image/".toList.isPrefixOf file.type.toList with
          | false => rfl
          | true =>
            obtain ⟨rest, hrest⟩ := (startsWith_image_iff file.type).1 hq
            exact absurd ⟨file, rest, hfile, hrest⟩ hno
        simp only [Frontend.handleReportFileChange, hfile, hp, showNotification,
          Bool.false_eq_true, if_false, and_self]
    rw [hfirst _ hrej.1]
    exact ⟨rfl, hrej.2.1, hrej.2.2, rfl⟩

theorem Frontend.handleAnalyzeReport_without_image_witness :
    AppState.initial.reportImage = none ∧
    (Frontend.handleAnalyzeReport (.loaded "data:image/png;base64,iVA=") AppState.initial).2
      = none ∧
    (Frontend.handleAnalyzeReport (.loaded "data:image/png;base64,iVA=")
        AppState.initial).1.notification
      = ⟨true, "Please upload a medical report image first to analyze.", "error"⟩ :=
  have h := (Frontend.handleAnalyzeReport_without_image
    (.loaded "data:image/png;base64,iVA=")).1 AppState.initial rfl
  ⟨rfl, h.1, h.2.2.2⟩

/-! ## Save followed by load -/

theorem JsObj.get_of_mem_keys (o : JsObj) (k : String) (h : k ∈ o.keys) :
    ∃ v : JsVal, JsObj.get o k = some v := by
  induction o with
  | nil => simp [JsObj.keys] at h
  | cons p rest ih =>
    by_cases hp : p.1 = k
    · exact ⟨p.2, by simp [JsObj.get_cons, hp]⟩
    · have hrest : k ∈ JsObj.keys rest := by
        simp only [JsObj.keys, List.map_cons, List.mem_cons] at h
        rcases h with h | h
        · exact absurd h.symm hp
        · exact h
      obtain ⟨v, hv⟩ := ih hrest
      exact ⟨v, by simp [JsObj.get_cons, hp, hv]⟩

/-- C26: in `f/frontend/src/App.js`, a successful `handleFormSubmit` of the form `F` followed by a
successful `fetchUserData` for the same application id and user id, into any form state, yields a
`formData` that agrees with `F` on every field of `F` (on the seventeen fields when `F` has the
seventeen form fields), whatever document was stored before; the form and the stored document are
records (distinct field names).  Both handlers address the document at
`artifacts/appId/users/userId/biodata/profile`. -/
theorem Frontend.save_then_load_round_trip (appId uid : String) (store : Store)
    (s t : AppState) (hne : uid ≠ "")
    (hsave : s.db = true ∧ s.userId = some uid)
    (hload : t.isAuthReady = true ∧ t.db = true ∧ t.userId = some uid)
    (hform : s.formData.keys.Nodup)
    (hstored : ((store (docPath appId uid)).getD []).keys.Nodup) :
    docPath appId uid = ["artifacts", appId, "users", uid, "biodata", "profile"] ∧
    (∀ k ∈ s.formData.keys,
      (Frontend.fetchUserData appId .fulfilled
        (Frontend.handleFormSubmit appId .fulfilled store s).2 t).formData.get k
        = s.formData.get k) ∧
    (s.formData.keys = formFieldNames → ∀ k ∈ formFieldNames,
      (Frontend.fetchUserData appId .fulfilled
        (Frontend.handleFormSubmit appId .fulfilled store s).2 t).formData.get k
        = s.formData.get k) := by
  have ht := userId_truthy uid hne
  have hstore : (Frontend.handleFormSubmit appId .fulfilled store s).2
      = setDoc store (docPath appId uid) s.formData true := by
    simp [Frontend.handleFormSubmit, hsave.1, hsave.2, ht, userIdValue, JsVal.toStr]
  have hdoc : setDoc store (docPath appId uid) s.formData true (docPath appId uid)
      = some (JsObj.assign ((store (docPath appId uid)).getD []) s.formData) := by
    simp [setDoc]
  have hfetch : (Frontend.fetchUserData appId .fulfilled
        (Frontend.handleFormSubmit appId .fulfilled store s).2 t).formData
      = JsObj.assign t.formData
          (JsObj.assign ((store (docPath appId uid)).getD []) s.formData) := by
    rw [hstore]
    simp [Frontend.fetchUserData, hload.1, hload.2.1, hload.2.2, ht, userIdValue, JsVal.toStr,
      hdoc, showNotification]
  have hall : ∀ k ∈ s.formData.keys,
      (Frontend.fetchUserData appId .fulfilled
        (Frontend.handleFormSubmit appId .fulfilled store s).2 t).formData.get k
        = s.formData.get k := by
    intro k hk
    obtain ⟨v, hv⟩ := JsObj.get_of_mem_keys s.formData k hk
    rw [hfetch, JsObj.get_assign _ _ (JsObj.nodup_keys_assign _ _ hstored),
      JsObj.get_assign _ _ hform, hv]
  exact ⟨rfl, hall, fun hkeys k hk => hall k (hkeys ▸ hk)⟩

theorem Frontend.save_then_load_round_trip_witness :
    "user-1" ≠ "" ∧
    (handleInputChange "height" "180"
      { AppState.initial with db := true, isAuthReady := true,
                              userId := some "user-1" }).formData.keys.Nodup ∧
    (∀ k ∈ (handleInputChange "height" "180"
        { AppState.initial with db := true, isAuthReady := true,
                                userId := some "user-1" }).formData.keys,
      (Frontend.fetchUserData "app" .fulfilled
        (Frontend.handleFormSubmit "app" .fulfilled
          (fun p => if p = docPath "app" "user-1"
            then some [("height", .str "170"), ("weight", .str "70")] else none)
          (handleInputChange "height" "180"
            { AppState.initial with db := true, isAuthReady := true,
                                    userId := some "user-1" })).2
        { AppState.initial with db := true, isAuthReady := true,
                                userId := some "user-1" }).formData.get k
        = (handleInputChange "height" "180"
            { AppState.initial with db := true, isAuthReady := true,
                                    userId := some "user-1" }).formData.get k) :=
  ⟨by decide, by decide,
    (Frontend.save_then_load_round_trip "app" "user-1"
      (fun p => if p = docPath "app" "user-1"
        then some [("height", .str "170"), ("weight", .str "70")] else none)
      (handleInputChange "height" "180"
        { AppState.initial with db := true, isAuthReady := true, userId := some "user-1" })
      { AppState.initial with db := true, isAuthReady := true, userId := some "user-1" }
      (by decide) ⟨rfl, rfl⟩ ⟨rfl, rfl, rfl⟩ (by decide) (by decide)).2.1⟩

/-! ## Responses without text -/

/-- When the plain read `result.candidates[0].content.parts[0].text` succeeds, the guarded read
yields the same value. -/
theorem candidateText_of_directText (result v : JsVal) (h : directText result = .ok v) :
    candidateText result = .ok v := by
  unfold directText at h
  cases h1 : getProp result "candidates" with
  | error e => simp [h1, bind, Except.bind] at h
  | ok candidates =>
    cases h2 : getIndex candidates 0 with
    | error e => simp [h1, h2, bind, Except.bind] at h
    | ok first =>
      cases h3 : getProp first "content" with
      | error e => simp [h1, h2, h3, bind, Except.bind] at h
      | ok content =>
        cases h4 : getProp content "parts" with
        | error e => simp [h1, h2, h3, h4, bind, Except.bind] at h
        | ok parts =>
          cases h5 : getIndex parts 0 with
          | error e => simp [h1, h2, h3, h4, h5, bind, Except.bind] at h
          | ok part =>
            have h6 : getProp part "text" = .ok v := by
              simpa [h1, h2, h3, h4, h5, bind, Except.bind] using h
            have n1 := getProp_ok_not_nullish _ _ _ h3
            have n2 := getProp_ok_not_nullish _ _ _ h4
            have n3 := getProp_ok_not_nullish _ _ _ h6
            have t1 := getIndex_ok_truthy _ _ _ h2 n1
            simp [candidateText, h1, h2, h3, h4, h5, h6, n1, n2, n3, t1, bind, Except.bind,
              pure, Except.pure]

/-- The responses without text: `candidates` absent, an empty list, a first candidate without
`content`, or an empty text, all leave `botResponseText` at its initial value. -/
theorem botResponseText_without_text (result : JsVal)
    (hno : (∃ fields : JsObj, result = .obj fields ∧
        (fields.get "candidates" = none ∨
          fields.get "candidates" = some (.arr []) ∨
          ∃ (first : JsObj) (more : List JsVal),
            fields.get "candidates" = some (.arr (.obj first :: more)) ∧
            first.get "content" = none)) ∨
      directText result = .ok (.str "")) :
    botResponseText result
      = .ok (.str "I'm having trouble connecting right now. Please try again later.") := by
  rcases hno with ⟨fields, hresult, h | h | ⟨first, more, h, hcontent⟩⟩ | h
  · subst hresult
    simp [botResponseText, candidateText, getProp, h, JsVal.truthy, troubleText, bind,
      Except.bind, pure, Except.pure]
  · subst hresult
    simp [botResponseText, candidateText, getProp, getIndex, h, JsVal.truthy, JsVal.isNullish,
      troubleText, bind, Except.bind, pure, Except.pure]
  · subst hresult
    simp [botResponseText, candidateText, getProp, getIndex, h, hcontent, JsVal.truthy,
      JsVal.isNullish, troubleText, bind, Except.bind, pure, Except.pure]
  · have hc := candidateText_of_directText result (.str "") h
    simp [botResponseText, hc, JsVal.truthy, troubleText, bind, Except.bind, pure, Except.pure]

/-- C27: in `health-app/src/App.jsx` and `tempCodeRunnerFile.js`, for every prior transcript `T` and
non-blank input, a 2xx response that yields no text (the body an object whose `candidates` is
absent or an empty list or starts with a candidate without `content`, or a body whose
`candidates[0].content.parts[0].text` is the empty string) leaves the transcript equal to `T`
followed by the user message and exactly one `bot` message with the text
"I'm having trouble connecting right now. Please try again later." -/
theorem no_text_appends_trouble_message (biodata : JsObj) (T : List ChatMessage)
    (input : String) (status : Nat) (result : JsVal)
    (hinput : jsTrim input ≠ "") (hstatus : 200 ≤ status ∧ status ≤ 299)
    (hno : (∃ fields : JsObj, result = .obj fields ∧
        (fields.get "candidates" = none ∨
          fields.get "candidates" = some (.arr []) ∨
          ∃ (first : JsObj) (more : List JsVal),
            fields.get "candidates" = some (.arr (.obj first :: more)) ∧
            first.get "content" = none)) ∨
      directText result = .ok (.str "")) :
    (HealthApp.completeSend biodata (.resolved ⟨status, .json result⟩) ⟨T, input, false⟩).messages
      = T ++ [ChatMessage.mk "user" (.str input),
          ChatMessage.mk "bot"
            (.str "I'm having trouble connecting right now. Please try again later.")] ∧
    (TempCodeRunner.completeSend biodata (.resolved ⟨status, .json result⟩)
        ⟨T, input, false⟩).messages
      = T ++ [ChatMessage.mk "user" (.str input),
          ChatMessage.mk "bot"
            (.str "I'm having trouble connecting right now. Please try again later.")] := by
  have hbot := botResponseText_without_text result hno
  have hok : Response.ok ⟨status, .json result⟩ = true := by
    simp [Response.ok, hstatus.1, hstatus.2]
  constructor
  · unfold HealthApp.completeSend
    rw [HealthApp.sendHistory_idle biodata ⟨T, input, false⟩ hinput rfl]
    simp [HealthApp.handleSendMessage_settled, HealthApp.reply, FetchResult.await, hok,
      Response.json, hbot, bind, Except.bind, pure, Except.pure]
  · unfold TempCodeRunner.completeSend
    rw [TempCodeRunner.sendPrompt_idle biodata ⟨T, input, false⟩ hinput rfl]
    simp [TempCodeRunner.handleSendMessage_settled, TempCodeRunner.reply, FetchResult.await,
      Response.json, hbot, bind, Except.bind]

theorem no_text_appends_trouble_message_witness :
    jsTrim "Is tea healthy?" ≠ "" ∧ (200 ≤ 200 ∧ 200 ≤ 299) ∧
    (HealthApp.completeSend []
        (.resolved ⟨200, .json (.obj [("promptFeedback", .obj [("blockReason", .str "SAFETY")])])⟩)
        ⟨[greeting], "Is tea healthy?", false⟩).messages
      = [greeting] ++ [ChatMessage.mk "user" (.str "Is tea healthy?"),
          ChatMessage.mk "bot"
            (.str "I'm having trouble connecting right now. Please try again later.")] ∧
    (TempCodeRunner.completeSend []
        (.resolved ⟨200, .json (.obj [("promptFeedback", .obj [("blockReason", .str "SAFETY")])])⟩)
        ⟨[greeting], "Is tea healthy?", false⟩).messages
      = [greeting] ++ [ChatMessage.mk "user" (.str "Is tea healthy?"),
          ChatMessage.mk "bot"
            (.str "I'm having trouble connecting right now. Please try again later.")] :=
  ⟨by decide, by decide,
    no_text_appends_trouble_message [] [greeting] "Is tea healthy?" 200
      (.obj [("promptFeedback", .obj [("blockReason", .str "SAFETY")])])
      (by decide) (by decide)
      (Or.inl ⟨[("promptFeedback", .obj [("blockReason", .str "SAFETY")])], rfl, Or.inl rfl⟩)⟩

/-! ## Logout: failure and frame -/

/-- C28: `handleLogout` (in `f/frontend/src/App.js` and `tempCodeRunnerFile.js`) is atomic on
failure: when sign-out is rejected, `userId` and `formData` keep their values and an error
notification is shown; when `auth` is unset, the state is unchanged however sign-out would
settle. -/
theorem handleLogout_atomic_on_failure (s : AppState) :
    (s.auth = true → ∀ e : JsError,
      (Frontend.handleLogout (.rejected e) s).userId = s.userId ∧
      (Frontend.handleLogout (.rejected e) s).formData = s.formData ∧
      (Frontend.handleLogout (.rejected e) s).notification
        = ⟨true, "Logout failed. Please try again.", "error"⟩ ∧
      (TempCodeRunner.handleLogout (.rejected e) s).userId = s.userId ∧
      (TempCodeRunner.handleLogout (.rejected e) s).formData = s.formData ∧
      (TempCodeRunner.handleLogout (.rejected e) s).notification
        = ⟨true, "Logout failed.", "error"⟩) ∧
    (s.auth = false → ∀ signOut : Settled,
      Frontend.handleLogout signOut s = s ∧ TempCodeRunner.handleLogout signOut s = s) := by
  constructor
  · intro hauth e
    simp [Frontend.handleLogout, TempCodeRunner.handleLogout, hauth, showNotification]
  · intro hauth signOut
    simp [Frontend.handleLogout, TempCodeRunner.handleLogout, hauth]

theorem handleLogout_atomic_on_failure_witness :
    ({ AppState.initial with auth := true, userId := some "user-1",
                             formData := [("fullName", .str "Asha")] } : AppState).auth = true ∧
    (Frontend.handleLogout (.rejected ⟨"Firebase: Error (auth/network-request-failed)."⟩)
      { AppState.initial with auth := true, userId := some "user-1",
                              formData := [("fullName", .str "Asha")] }).userId
      = some "user-1" ∧
    (Frontend.handleLogout (.rejected ⟨"Firebase: Error (auth/network-request-failed)."⟩)
      { AppState.initial with auth := true, userId := some "user-1",
                              formData := [("fullName", .str "Asha")] }).formData
      = [("fullName", .str "Asha")] ∧
    (Frontend.handleLogout (.rejected ⟨"Firebase: Error (auth/network-request-failed)."⟩)
      { AppState.initial with auth := true, userId := some "user-1",
                              formData := [("fullName", .str "Asha")] }).notification
      = ⟨true, "Logout failed. Please try again.", "error"⟩ :=
  have h := (handleLogout_atomic_on_failure
    { AppState.initial with auth := true, userId := some "user-1",
                            formData := [("fullName", .str "Asha")] }).1 rfl
    ⟨"Firebase: Error (auth/network-request-failed)."⟩
  ⟨rfl, h.1, h.2.1, h.2.2.1⟩

/-- C29: a successful `handleLogout` in `f/frontend/src/App.js` changes only `userId`, `formData`
and the notification (with the hide timer it schedules): `healthSummary`, `reportAnalysis`,
`reportImage`, `reportImagePreview` and `isAuthReady` keep the values they had before logout, and
so do the other pieces of state. -/
theorem Frontend.handleLogout_frame (s : AppState) (hauth : s.auth = true) :
    (Frontend.handleLogout .fulfilled s).healthSummary = s.healthSummary ∧
    (Frontend.handleLogout .fulfilled s).reportAnalysis = s.reportAnalysis ∧
    (Frontend.handleLogout .fulfilled s).reportImage = s.reportImage ∧
    (Frontend.handleLogout .fulfilled s).reportImagePreview = s.reportImagePreview ∧
    (Frontend.handleLogout .fulfilled s).isAuthReady = s.isAuthReady ∧
    Frontend.handleLogout .fulfilled s
      = { s with
          userId := none,
          formData := logoutFormData,
          notification := ⟨true, "You have been logged out successfully.", "success"⟩,
          timers := s.timers ++ [s.now + 3000] } := by
  have h : Frontend.handleLogout .fulfilled s
      = { s with
          userId := none,
          formData := logoutFormData,
          notification := ⟨true, "You have been logged out successfully.", "success"⟩,
          timers := s.timers ++ [s.now + 3000] } := by
    simp [Frontend.handleLogout, hauth, showNotification]
  rw [h]
  exact ⟨rfl, rfl, rfl, rfl, rfl, rfl⟩

theorem Frontend.handleLogout_frame_witness :
    ({ AppState.initial with auth := true, isAuthReady := true, userId := some "user-1",
                             healthSummary := .str "<h3>Summary for Asha</h3>",
                             reportAnalysis := .str "<ul><li>Hb 13.5</li></ul>" }
      : AppState).auth = true ∧
    (Frontend.handleLogout .fulfilled
      { AppState.initial with auth := true, isAuthReady := true, userId := some "user-1",
                              healthSummary := .str "<h3>Summary for Asha</h3>",
                              reportAnalysis := .str "<ul><li>Hb 13.5</li></ul>" }).healthSummary
      = .str "<h3>Summary for Asha</h3>" ∧
    (Frontend.handleLogout .fulfilled
      { AppState.initial with auth := true, isAuthReady := true, userId := some "user-1",
                              healthSummary := .str "<h3>Summary for Asha</h3>",
                              reportAnalysis := .str "<ul><li>Hb 13.5</li></ul>" }).reportAnalysis
      = .str "<ul><li>Hb 13.5</li></ul>" ∧
    (Frontend.handleLogout .fulfilled
      { AppState.initial with auth := true, isAuthReady := true, userId := some "user-1",
                              healthSummary := .str "<h3>Summary for Asha</h3>",
                              reportAnalysis := .str "<ul><li>Hb 13.5</li></ul>" }).isAuthReady
      = true :=
  have h := Frontend.handleLogout_frame
    { AppState.initial with auth := true, isAuthReady := true, userId := some "user-1",
                            healthSummary := .str "<h3>Summary for Asha</h3>",
                            reportAnalysis := .str "<ul><li>Hb 13.5</li></ul>" } rfl
  ⟨rfl, h.1, h.2.1, h.2.2.2.2.1⟩

/-! ## The single-turn request of `tempCodeRunnerFile.js` -/

/-- C30: in `tempCodeRunnerFile.js`, for a non-blank input and no pending request, the outbound
`contents` is exactly one `user` turn whose single part is the prompt, which is a fixed template
(five texts, the same for every biodata and input) around the values shown for
`chronicDiseases`, `allergies`, `dietaryHabits` and the input; two sends with the same input and
biodata from different transcripts issue the same request. -/
theorem TempCodeRunner.request_independent_of_transcript :
    (∀ (biodata : JsObj) (T : List ChatMessage) (input : String), jsTrim input ≠ "" →
      ∃ req : TempCodeRunner.Request,
        (TempCodeRunner.handleSendMessage biodata ⟨T, input, false⟩).2 = some req ∧
        req.contents = [⟨"user", [⟨.str (TempCodeRunner.prompt biodata input)⟩]⟩]) ∧
    (∃ opening second third question closing : String,
      ∀ (biodata : JsObj) (input : String),
        TempCodeRunner.prompt biodata input
          = opening ++ HealthApp.orNotProvided biodata "chronicDiseases"
            ++ second ++ HealthApp.orNotProvided biodata "allergies"
            ++ third ++ HealthApp.orNotProvided biodata "dietaryHabits"
            ++ question ++ input ++ closing) ∧
    (∀ (biodata : JsObj) (T1 T2 : List ChatMessage) (input : String), jsTrim input ≠ "" →
      (TempCodeRunner.handleSendMessage biodata ⟨T1, input, false⟩).2
        = (TempCodeRunner.handleSendMessage biodata ⟨T2, input, false⟩).2) := by
  refine ⟨?_, ?_, ?_⟩
  · intro biodata T input hinput
    rw [TempCodeRunner.sendPrompt_idle biodata ⟨T, input, false⟩ hinput rfl]
    exact ⟨_, rfl, rfl⟩
  · refine ⟨"You are a friendly and helpful AI health assistant called \"Health Yaar AI\". A user is asking a question. \n"
        ++ "        Here is some of their health data for context (use it to provide more relevant, general advice but do not diagnose): \n"
        ++ "        - Chronic Conditions: ",
      "\n" ++ "        - Allergies: ",
      "\n" ++ "        - Dietary Habits: ",
      "\n" ++ "        \n" ++ "        The user's question is: \"",
      "\"\n" ++ "\n" ++ "        Please provide a helpful, safe, and general response. \n"
        ++ "        *IMPORTANT*: Do NOT provide a medical diagnosis or prescribe medication. Always include a disclaimer to consult a healthcare professional for personal medical advice.\n"
        ++ "        ", ?_⟩
    intro biodata input
    simp only [TempCodeRunner.prompt, String.append_assoc]
  · intro biodata T1 T2 input hinput
    rw [TempCodeRunner.sendPrompt_idle biodata ⟨T1, input, false⟩ hinput rfl,
      TempCodeRunner.sendPrompt_idle biodata ⟨T2, input, false⟩ hinput rfl]

theorem TempCodeRunner.request_independent_of_transcript_witness :
    jsTrim "Is tea healthy?" ≠ "" ∧
    (TempCodeRunner.handleSendMessage [("allergies", .str "Pollen")]
        ⟨[greeting], "Is tea healthy?", false⟩).2
      = (TempCodeRunner.handleSendMessage [("allergies", .str "Pollen")]
        ⟨[greeting, ⟨"user", .str "My password is hunter2"⟩, ⟨"bot", .str "Noted."⟩],
          "Is tea healthy?", false⟩).2 :=
  ⟨by decide,
    TempCodeRunner.request_independent_of_transcript.2.2 [("allergies", .str "Pollen")]
      [greeting] [greeting, ⟨"user", .str "My password is hunter2"⟩, ⟨"bot", .str "Noted."⟩]
      "Is tea healthy?" (by decide)⟩
